import Mathlib

/-!
Verification of the deployment script `deploy_step_function_workflow.py`.

The script is embedded shallowly: every remote service (S3, CloudFormation)
is represented by a `World` record holding the responses the service would
return during one run, and every modelled function returns a value of
`Res α := Except Err α × List Event` — the outcome of the Python call
together with the ordered list of remote calls it issued.  Python `raise`
is `Except.error`, a raised exception's message is recovered by
`errMessage`.  Python keyword-argument dictionaries (`**kwargs`) are
association lists from `String` to `PyVal`.
-/

namespace DeployWorkflow

/-- A Python value as far as the script distinguishes them: a string
(`str`/`unicode`), or some non-string non-None value.  `None` is modelled
by `Option.none` at the use sites (`kwargs.get(key, None)`). -/
inductive PyVal where
  | str (s : String)
  | nonStr
  deriving DecidableEq, Repr

/-- Rendering of a `PyVal` into a message, as Python string formatting
would do; the non-string case is a placeholder (its text is never reached
under the validated paths). -/
def pyToString : PyVal → String
  | .str s => s
  | .nonStr => "nonStringValue"

/-- One stack summary returned by `list_stacks`. -/
structure Stack where
  name : String
  status : String
  deriving DecidableEq, Repr

/-- The declared spec of one template parameter; only the presence of a
`Default` entry matters to the script. -/
structure ParamSpec where
  default : Option String
  deriving DecidableEq, Repr

/-- The `Parameters` mapping of a parsed JSON template: association list
with pairwise-distinct keys (a JSON object). -/
abbrev TemplateParams := List (String × ParamSpec)

/-- One entry of `describe_change_set`'s `Changes` list (only the
`ResourceChange.LogicalResourceId` field is read by the script). -/
structure ResourceChange where
  logicalResourceId : String
  deriving DecidableEq, Repr

/-- One `describe_change_set` response, restricted to the fields the
script reads. -/
structure ChangeSetResp where
  status : String
  statusReason : String
  executionStatus : String
  changes : List ResourceChange
  deriving DecidableEq, Repr

/-- One parameter entry of a `create_change_set` request. -/
structure CsParameter where
  parameterKey : PyVal
  parameterValue : PyVal
  usePreviousValue : Bool
  deriving DecidableEq, Repr

/-- A `create_change_set` request, restricted to the arguments the script
passes. -/
structure CreateChangeSetRequest where
  stackName : PyVal
  templateBody : String
  parameters : List CsParameter
  capabilities : List String
  description : PyVal
  changeSetName : String
  changeSetType : String
  deriving DecidableEq, Repr

/-- The fixed remote and local environment observed during one run:
bucket listing, local files (path to raw contents), the parsed-JSON view
of template files, the pages that the `CREATE_COMPLETE | UPDATE_COMPLETE`
filtered `list_stacks` call returns (an empty listing is one empty page),
the id assigned by `create_change_set`, the value of `uuid.uuid4()` as a
string, and the streams of `describe_change_set` responses after creation
and after execution. -/
structure World where
  buckets : List String
  files : List (String × String)
  templates : List (String × TemplateParams)
  stackPages : List (List Stack)
  changeSetId : String
  uuidStr : String
  createResponses : List ChangeSetResp
  execResponses : List ChangeSetResp
  deriving DecidableEq, Repr

/-- A remote call issued during the run, in order. -/
inductive Event where
  | listBuckets
  | putObject (bucket key : PyVal) (body contentType storageClass : String)
  | listStacks
  | readFile (path : String)
  | describeCS (csid : String)
  | sleepFor (seconds : Nat)
  | createCS (req : CreateChangeSetRequest)
  | executeCS (csid : String)
  deriving DecidableEq, Repr

/-- An exception raised by the script (each constructor is one `raise`
site of the source, or a Python-level error: `keyError` for a missing
dictionary key, `ioError` for opening a missing file, `pollExhausted`
models the polling loop never seeing a terminal status, which in Python
is nontermination). -/
inductive Err where
  | validationNone (param : String)
  | validationNotStr (param : String)
  | fileNotFound (value : String)
  | bucketNotFound (value : String)
  | badStorageClass (param : String)
  | stackNotFound (value : String)
  | ioError (path : String)
  | missingTemplateParam (param : PyVal) (tmpl : String)
  | paramWithoutDefault (tmpl : String) (param : String)
  | creationFailed (csid reason : String)
  | scopeError (csid : String) (smres : PyVal)
  | executionFailed (csid reason : String)
  | executionState (csid status : String)
  | keyError (key : String)
  | pollExhausted
  deriving DecidableEq, Repr

/-- A single-quote character, used when rendering the source's messages. -/
def sq : String := String.mk [Char.ofNat 39]

/-- The message of each exception, rendered exactly as the source's
`"...".format(...)` calls produce it (including the doubled quote typo in
the stack message). -/
def errMessage : Err → String
  | .validationNone p => p ++ " must not be None"
  | .validationNotStr p => p ++ " must be a str or unicode value"
  | .fileNotFound v => "Specified file " ++ sq ++ v ++ sq ++ " does not exist or is not a file"
  | .bucketNotFound v => "Specified bucket " ++ sq ++ v ++ sq ++ " does not exist"
  | .badStorageClass p => p ++ " must be one of [STANDARD|STANDARD_IA|ONEZONE_IA]"
  | .stackNotFound v => "Specified Stack " ++ sq ++ v ++ sq ++ sq ++ " either does not exist or is not ready for update"
  | .ioError p => "No such file or directory: " ++ p
  | .missingTemplateParam n t => "Parameter " ++ sq ++ pyToString n ++ sq ++ " not present in template " ++ sq ++ t ++ sq
  | .paramWithoutDefault t k => "Additional parameters in template " ++ sq ++ t ++ sq ++ " without defaults (e.g. " ++ sq ++ k ++ sq ++ ")"
  | .creationFailed c r => "ChangeSet " ++ sq ++ c ++ sq ++ " creation FAILED - " ++ sq ++ r ++ sq
  | .scopeError c s => "ChangeSet " ++ sq ++ c ++ sq ++ " does not modify StateMachine " ++ sq ++ pyToString s ++ sq ++ " - check workflow file"
  | .executionFailed c r => "ChangeSet " ++ sq ++ c ++ sq ++ " execution FAILED - " ++ sq ++ r ++ sq
  | .executionState c s => "ChangeSet " ++ sq ++ c ++ sq ++ " execution status is " ++ sq ++ s ++ sq
  | .keyError k => "KeyError: " ++ sq ++ k ++ sq
  | .pollExhausted => "describe_change_set response stream exhausted"

/-- The outcome of a modelled Python call: its result or raised exception,
together with the ordered trace of remote calls it issued. -/
abbrev Res (α : Type) : Type := Except Err α × List Event

/-- Normal return with no remote call. -/
def rok {α : Type} (x : α) : Res α := (Except.ok x, [])

/-- A `raise`, with no remote call. -/
def rthrow {α : Type} (e : Err) : Res α := (Except.error e, [])

/-- Issue one remote call. -/
def remit (ev : Event) : Res Unit := (Except.ok (), [ev])

/-- Sequencing: a raised exception propagates and stops the run; traces
accumulate in order. -/
def rbind {α β : Type} (a : Res α) (f : α → Res β) : Res β :=
  match a with
  | (Except.error e, tr) => (Except.error e, tr)
  | (Except.ok x, tr) => ((f x).1, tr ++ (f x).2)

/-- A keyword-argument dictionary. -/
abbrev Kwargs := List (String × PyVal)

/-- `kwargs.get(key, None)`. -/
def pyGet (kwargs : Kwargs) (key : String) : Option PyVal :=
  (kwargs.find? (fun kv => kv.1 = key)).map (fun kv => kv.2)

/-- `kwargs[key]`: raises `KeyError` when the key is absent. -/
def pyIndex (kwargs : Kwargs) (key : String) : Res PyVal :=
  match pyGet kwargs key with
  | some v => rok v
  | none => rthrow (.keyError key)

/-- Runs the post-check functions of `_check_parameters` in order
(source lines 72-77; a single function is modelled as a one-element
list). -/
def run_post_checks (name value : String) : List (String → String → Res Unit) → Res Unit
  | [] => rok ()
  | f :: fs => rbind (f name value) (fun _ => run_post_checks name value fs)

/-- Source `_check_parameters` (lines 67-77): `None` and non-string
values are rejected with an error naming the parameter, then the
post-checks run in order on the string value. -/
def _check_parameters (name : String) (v : Option PyVal)
    (post_check_fn_list : List (String → String → Res Unit)) : Res Unit :=
  match v with
  | none => rthrow (.validationNone name)
  | some .nonStr => rthrow (.validationNotStr name)
  | some (.str s) => run_post_checks name s post_check_fn_list

/-- Source `_check_file_exists` (lines 79-81): `os.path.isfile` is a
local check against `World.files`. -/
def _check_file_exists (w : World) (_param_name value : String) : Res Unit :=
  if w.files.any (fun kv => kv.1 = value) then rok ()
  else rthrow (.fileNotFound value)

/-- Source `check_bucket_exists` (lines 99-105): one `list_buckets`
call, then a scan for the bucket name. -/
def check_bucket_exists (w : World) (_param_name value : String) : Res Unit :=
  rbind (remit .listBuckets) (fun _ =>
    if w.buckets.any (fun b => b = value) then rok ()
    else rthrow (.bucketNotFound value))

/-- Source `check_storage_class` (lines 107-109). -/
def check_storage_class (param_name value : String) : Res Unit :=
  if ["STANDARD", "STANDARD_IA", "ONEZONE_IA"].contains value then rok ()
  else rthrow (.badStorageClass param_name)

/-- Contents of a local file, if it exists. -/
def fsLookup (w : World) (path : String) : Option String :=
  (w.files.find? (fun kv => kv.1 = path)).map (fun kv => kv.2)

/-- `open(path, "r").read()`: the raw contents, recording the read. -/
def readFileR (w : World) (path : String) : Res String :=
  match fsLookup w path with
  | some body => (Except.ok body, [Event.readFile path])
  | none => (Except.error (.ioError path), [Event.readFile path])

/-- The parsed-JSON `Parameters` mapping of a template file, if the file
exists and parses. -/
def tplLookup (w : World) (path : String) : Option TemplateParams :=
  (w.templates.find? (fun kv => kv.1 = path)).map (fun kv => kv.2)

/-- `json.load(open(path, "r")).get("Parameters", ...)`: the parsed view,
recording the read. -/
def readTemplateR (w : World) (path : String) : Res TemplateParams :=
  match tplLookup w path with
  | some tp => (Except.ok tp, [Event.readFile path])
  | none => (Except.error (.ioError path), [Event.readFile path])

/-- The page-consuming loop of `check_stack_exists_and_updatable`
(source lines 154-165): each fetched page is one `list_stacks` call;
the scan returns on the first summary whose name matches; when no page
remains the stack is reported missing. -/
def cseuGo (value : String) : List (List Stack) → Res Unit
  | [] => rthrow (.stackNotFound value)
  | page :: rest =>
    rbind (remit .listStacks) (fun _ =>
      if page.any (fun s => s.name = value) then rok ()
      else cseuGo value rest)

/-- Source `check_stack_exists_and_updatable` (lines 152-165): walks
every page of the `CREATE_COMPLETE | UPDATE_COMPLETE` filtered listing. -/
def check_stack_exists_and_updatable (w : World) (_param_name value : String) : Res Unit :=
  cseuGo value w.stackPages

/-- `template_parameters.get(name, None)` where the key comes from a
`kwargs` value: only a string key can be present in a JSON object. -/
def tplParamGet (tp : TemplateParams) (k : PyVal) : Option ParamSpec :=
  match k with
  | .str s => (tp.find? (fun kv => kv.1 = s)).map (fun kv => kv.2)
  | .nonStr => none

/-- `del template_parameters[name]` on a JSON object: removes the unique
entry with that key. -/
def tplParamDel (tp : TemplateParams) (k : PyVal) : TemplateParams :=
  match k with
  | .str s => tp.eraseP (fun kv => kv.1 = s)
  | .nonStr => tp

/-- The required-name loop of `check_template_params_exist` (source
lines 170-174): each required name must be declared, and is deleted from
the working copy once found. -/
def removeRequired (tmpl : String) : List PyVal → TemplateParams → Except Err TemplateParams
  | [], tp => .ok tp
  | n :: ns, tp =>
    match tplParamGet tp n with
    | none => .error (.missingTemplateParam n tmpl)
    | some _ => removeRequired tmpl ns (tplParamDel tp n)

/-- The remaining-parameter loop of `check_template_params_exist`
(source lines 176-180): any leftover declared parameter without a
`Default` is an error naming it. -/
def checkRemaining (tmpl : String) (tp : TemplateParams) : Except Err Unit :=
  if tp.length = 0 then .ok ()
  else
    match tp.find? (fun kv => kv.2.default = none) with
    | some kv => .error (.paramWithoutDefault tmpl kv.1)
    | none => .ok ()

/-- The pure core of `check_template_params_exist` (source lines
167-180), given the required names and the parsed parameter set. -/
def checkTemplateParamsPure (tmpl : String) (req : List PyVal) (tp : TemplateParams) : Except Err Unit :=
  match removeRequired tmpl req tp with
  | .error e => .error e
  | .ok rest => checkRemaining tmpl rest

/-- Source `check_template_params_exist` (lines 167-180) as a post-check:
opens and parses the template, reads the two required parameter names out
of `kwargs` (a `KeyError` if absent), then runs the pure core. -/
def check_template_params_exist (w : World) (kwargs : Kwargs) (_param_name value : String) : Res Unit :=
  rbind (readTemplateR w value) (fun tp =>
  rbind (pyIndex kwargs "S3KeyParameterName") (fun p1 =>
  rbind (pyIndex kwargs "SMResourceParameterName") (fun p2 =>
  match checkTemplateParamsPure value [p1, p2] tp with
  | .error e => rthrow e
  | .ok _ => rok ())))

/-- Runs a list of `(parameter name, post-checks)` validations in order,
each through `_check_parameters` on `kwargs.get(name, None)`. -/
def run_checks (kwargs : Kwargs) : List (String × List (String → String → Res Unit)) → Res Unit
  | [] => rok ()
  | (n, posts) :: rest =>
    rbind (_check_parameters n (pyGet kwargs n) posts) (fun _ => run_checks kwargs rest)

/-- The validation sequence of `save_workflow_to_s3` (source lines
115-118), in source order. -/
def save_checks (w : World) : List (String × List (String → String → Res Unit)) :=
  [("Bucket", [check_bucket_exists w]),
   ("Key", []),
   ("SourceFileName", [_check_file_exists w]),
   ("S3StorageClass", [check_storage_class])]

/-- Source `save_workflow_to_s3` (lines 83-127): validates its four
parameters, then calls `put_object` with the file's contents, content
type `application/json`, and the literal storage class `"STANDARD"`
hard-coded at line 127. -/
def save_workflow_to_s3 (w : World) (kwargs : Kwargs) : Res Unit :=
  rbind (run_checks kwargs (save_checks w)) (fun _ =>
  rbind (pyIndex kwargs "Bucket") (fun b =>
  rbind (pyIndex kwargs "Key") (fun k =>
  rbind (pyIndex kwargs "SourceFileName") (fun f =>
  rbind (readFileR w (pyToString f)) (fun body =>
  rbind (remit (.putObject b k body "application/json" "STANDARD")) (fun _ =>
  rok ()))))))

/-- Terminal statuses of the polling loop (source line 185). -/
def isTerminalStatus (s : String) : Bool :=
  s = "CREATE_COMPLETE" || s = "FAILED"

/-- The polling loop of `wait_for_change_set` after the first response
(source lines 184-189): while the status is not terminal, sleep the
current interval, double it, and poll again; an exhausted response
stream models the loop never terminating. -/
def waitGo (csid : String) (sleepTime : Nat) (r : ChangeSetResp) : List ChangeSetResp → Res ChangeSetResp
  | [] =>
    if isTerminalStatus r.status then rok r
    else rthrow .pollExhausted
  | r2 :: rs =>
    if isTerminalStatus r.status then rok r
    else
      rbind (remit (.sleepFor sleepTime)) (fun _ =>
      rbind (remit (.describeCS csid)) (fun _ =>
      waitGo csid (2 * sleepTime) r2 rs))

/-- Source `wait_for_change_set` (lines 182-189): one initial
`describe_change_set`, then the doubling-backoff loop starting at a
2-second interval; returns the first terminal response observed. -/
def wait_for_change_set (csid : String) (stream : List ChangeSetResp) : Res ChangeSetResp :=
  match stream with
  | [] => rthrow .pollExhausted
  | r :: rs => rbind (remit (.describeCS csid)) (fun _ => waitGo csid 2 r rs)

/-- Splitting a character list at every dash, as Python
`"...".split("-")` does. -/
def splitDash : List Char → List (List Char)
  | [] => [[]]
  | c :: cs =>
    if c = Char.ofNat 45 then [] :: splitDash cs
    else
      match splitDash cs with
      | [] => [[c]]
      | g :: gs => (c :: g) :: gs

/-- Source line 222: the change-set name is the letter A followed by the
uuid string with its dashes removed. -/
def changeSetName (u : String) : String :=
  String.mk (Char.ofNat 65 :: (splitDash u.data).flatten)

/-- The validation sequence of `update_stack` (source lines 195-200), in
source order. -/
def us_validation_checks (w : World) (kwargs : Kwargs) : List (String × List (String → String → Res Unit)) :=
  [("StackName", [check_stack_exists_and_updatable w]),
   ("TemplateFileName", [_check_file_exists w, check_template_params_exist w kwargs]),
   ("S3KeyParameterName", []),
   ("S3Key", []),
   ("SMResourceParameterName", []),
   ("SMResource", [])]

/-- The whole validation phase of `update_stack` (source lines 195-200). -/
def us_validation (w : World) (kwargs : Kwargs) : Res Unit :=
  run_checks kwargs (us_validation_checks w kwargs)

/-- The `create_change_set` call of `update_stack` (source lines
203-227): arguments are evaluated in source order (so a missing
`Description` key raises `KeyError` after the template file is read but
before the request is submitted), and the platform-assigned id is
returned. -/
def us_create (w : World) (kwargs : Kwargs) : Res String :=
  rbind (pyIndex kwargs "StackName") (fun sn =>
  rbind (pyIndex kwargs "TemplateFileName") (fun tf =>
  rbind (readFileR w (pyToString tf)) (fun body =>
  rbind (pyIndex kwargs "S3KeyParameterName") (fun p1 =>
  rbind (pyIndex kwargs "S3Key") (fun s3k =>
  rbind (pyIndex kwargs "SMResourceParameterName") (fun p2 =>
  rbind (pyIndex kwargs "SMResource") (fun smr =>
  rbind (pyIndex kwargs "Description") (fun desc =>
  rbind (remit (.createCS
    { stackName := sn,
      templateBody := body,
      parameters :=
        [{ parameterKey := p1, parameterValue := s3k, usePreviousValue := false },
         { parameterKey := p2, parameterValue := smr, usePreviousValue := false }],
      capabilities := ["CAPABILITY_IAM", "CAPABILITY_NAMED_IAM"],
      description := desc,
      changeSetName := changeSetName w.uuidStr,
      changeSetType := "UPDATE" })) (fun _ =>
  rok w.changeSetId)))))))))

/-- Whether one proposed change targets `kwargs["SMResource"]` (source
line 238): string comparison against the logical resource id. -/
def changeMatches (smres : PyVal) (c : ResourceChange) : Bool :=
  match smres with
  | .str s => c.logicalResourceId = s
  | .nonStr => false

/-- The validation of the created change set (source lines 233-244): a
FAILED creation surfaces the platform reason; otherwise the proposed
changes are scanned for the expected resource and a scope error is
raised when none matches. -/
def us_scope_gate (csid : String) (resp : ChangeSetResp) (smres : PyVal) : Res Unit :=
  if resp.status = "FAILED" then rthrow (.creationFailed csid resp.statusReason)
  else if resp.changes.any (fun c => changeMatches smres c) then rok ()
  else rthrow (.scopeError csid smres)

/-- The post-execution status checks (source lines 253-257). -/
def final_status_check (csid : String) (resp : ChangeSetResp) : Res Unit :=
  if resp.status = "FAILED" then rthrow (.executionFailed csid resp.statusReason)
  else if resp.executionStatus = "AVAILABLE" then rok ()
  else rthrow (.executionState csid resp.executionStatus)

/-- Source `update_stack` (lines 129-259): validation, change-set
creation, first terminal wait, creation-status and scope validation,
execution, second terminal wait, final status checks. -/
def update_stack (w : World) (kwargs : Kwargs) : Res Unit :=
  rbind (us_validation w kwargs) (fun _ =>
  rbind (us_create w kwargs) (fun csid =>
  rbind (wait_for_change_set csid w.createResponses) (fun resp =>
  rbind (pyIndex kwargs "SMResource") (fun smr =>
  rbind (us_scope_gate csid resp smr) (fun _ =>
  rbind (remit (.executeCS csid)) (fun _ =>
  rbind (wait_for_change_set csid w.execResponses) (fun resp2 =>
  final_status_check csid resp2)))))))

/-- The keys `update_workflow` forwards to `save_workflow_to_s3`
(source line 266). -/
def saveKeys : List String := ["Bucket", "Key", "SourceFileName", "S3StorageClass"]

/-- The keys `update_workflow` forwards to `update_stack`
(source line 270). -/
def updateKeys : List String := ["StackName", "Description", "TemplateFileName", "S3KeyParameterName", "SMResourceParameterName", "SMResource"]

/-- The dictionary-comprehension filters of `update_workflow`. -/
def filterKeys (keys : List String) (kwargs : Kwargs) : Kwargs :=
  kwargs.filter (fun kv => keys.contains kv.1)

/-- Source line 271: the S3 key passed to the stack update, formatted as
a fully-qualified location string. -/
def s3Url (b k : PyVal) : String :=
  "s3://" ++ pyToString b ++ "/" ++ pyToString k

/-- The kwargs `update_workflow` passes to `update_stack` (source lines
270-271): the filtered forwardable keys plus the freshly-built S3Key
entry. -/
def uw_update_kwargs (kwargs : Kwargs) (b k : PyVal) : Kwargs :=
  filterKeys updateKeys kwargs ++ [("S3Key", .str (s3Url b k))]

/-- Source `update_workflow` (lines 261-272): saves the workflow to S3,
then updates the stack with the forwarded arguments and the formatted
S3 key. -/
def update_workflow (w : World) (kwargs : Kwargs) : Res Unit :=
  rbind (save_workflow_to_s3 w (filterKeys saveKeys kwargs)) (fun _ =>
  rbind (pyIndex kwargs "Bucket") (fun b =>
  rbind (pyIndex kwargs "Key") (fun k =>
  update_stack w (uw_update_kwargs kwargs b k))))

/-- Remote calls that mutate remote state (S3 writes, change-set
creation and execution); bucket and stack listings, file reads, polls
and sleeps are reads. -/
def isMutation : Event → Bool
  | .putObject _ _ _ _ _ => true
  | .createCS _ => true
  | .executeCS _ => true
  | _ => false

/-- Whether an event is an `execute_change_set` call. -/
def isExecuteCSEv : Event → Bool
  | .executeCS _ => true
  | _ => false

/-- Whether an event is a `create_change_set` call. -/
def isCreateCSEv : Event → Bool
  | .createCS _ => true
  | _ => false

/-- Whether an event is a `put_object` call. -/
def isPutObjectEv : Event → Bool
  | .putObject _ _ _ _ _ => true
  | _ => false

/-- The sleep durations recorded in a trace, in order. -/
def sleepsOf (tr : List Event) : List Nat :=
  tr.filterMap (fun e => match e with | .sleepFor n => some n | _ => none)

theorem rbind_fst_error {α β : Type} {a : Res α} {e : Err} (h : a.1 = Except.error e)
    (f : α → Res β) : rbind a f = (Except.error e, a.2) := by
  rcases a with ⟨res, tr⟩
  cases res with
  | error e2 => simp only [rbind]; simp_all
  | ok x => simp_all

theorem rbind_fst_ok {α β : Type} {a : Res α} {x : α} (h : a.1 = Except.ok x)
    (f : α → Res β) : rbind a f = ((f x).1, a.2 ++ (f x).2) := by
  rcases a with ⟨res, tr⟩
  cases res with
  | error e2 => simp_all
  | ok y => simp only [rbind]; simp_all

/-- Every event of the trace satisfies the predicate `P`. -/
def ResAll {α : Type} (P : Event → Bool) (r : Res α) : Prop :=
  r.2.all P = true

theorem ResAll_rbind {α β : Type} {P : Event → Bool} {a : Res α} {f : α → Res β}
    (h1 : ResAll P a) (h2 : ∀ x, ResAll P (f x)) : ResAll P (rbind a f) := by
  rcases a with ⟨res, tr⟩
  cases res with
  | error e => simpa [ResAll, rbind] using h1
  | ok x =>
    have := h2 x
    simp_all [ResAll, rbind, List.all_append]

theorem ResAll_rok {α : Type} {P : Event → Bool} (x : α) : ResAll P (rok x) := by
  simp [ResAll, rok]

theorem ResAll_rthrow {α : Type} {P : Event → Bool} (e : Err) : ResAll P (rthrow e : Res α) := by
  simp [ResAll, rthrow]

theorem ResAll_remit {P : Event → Bool} {ev : Event} (h : P ev = true) : ResAll P (remit ev) := by
  simp [ResAll, remit, h]

theorem ResAll_ite {α : Type} {P : Event → Bool} {c : Prop} [Decidable c] {a b : Res α}
    (h1 : ResAll P a) (h2 : ResAll P b) : ResAll P (if c then a else b) := by
  by_cases h : c <;> simp [h, h1, h2]

theorem ResAll_check_bucket_exists {P : Event → Bool} (hB : P .listBuckets = true)
    (w : World) (n v : String) : ResAll P (check_bucket_exists w n v) := by
  unfold check_bucket_exists
  exact ResAll_rbind (ResAll_remit hB) (fun _ => ResAll_ite (ResAll_rok _) (ResAll_rthrow _))

theorem ResAll_check_storage_class {P : Event → Bool} (n v : String) :
    ResAll P (check_storage_class n v) := by
  unfold check_storage_class
  exact ResAll_ite (ResAll_rok _) (ResAll_rthrow _)

theorem ResAll_check_file_exists {P : Event → Bool} (w : World) (n v : String) :
    ResAll P (_check_file_exists w n v) := by
  unfold _check_file_exists
  exact ResAll_ite (ResAll_rok _) (ResAll_rthrow _)

theorem ResAll_cseuGo {P : Event → Bool} (hS : P .listStacks = true) (v : String) :
    ∀ pages : List (List Stack), ResAll P (cseuGo v pages)
  | [] => ResAll_rthrow _
  | page :: rest => by
    unfold cseuGo
    exact ResAll_rbind (ResAll_remit hS)
      (fun _ => ResAll_ite (ResAll_rok _) (ResAll_cseuGo hS v rest))

theorem ResAll_check_stack_exists {P : Event → Bool} (hS : P .listStacks = true)
    (w : World) (n v : String) : ResAll P (check_stack_exists_and_updatable w n v) :=
  ResAll_cseuGo hS v w.stackPages

theorem ResAll_readFileR {P : Event → Bool} (hR : ∀ p, P (.readFile p) = true)
    (w : World) (path : String) : ResAll P (readFileR w path) := by
  unfold readFileR
  cases fsLookup w path <;> simp [ResAll, hR]

theorem ResAll_readTemplateR {P : Event → Bool} (hR : ∀ p, P (.readFile p) = true)
    (w : World) (path : String) : ResAll P (readTemplateR w path) := by
  unfold readTemplateR
  cases tplLookup w path <;> simp [ResAll, hR]

theorem ResAll_pyIndex {P : Event → Bool} (kwargs : Kwargs) (k : String) :
    ResAll P (pyIndex kwargs k) := by
  unfold pyIndex
  cases pyGet kwargs k <;> simp [ResAll, rok, rthrow]

theorem ResAll_check_template_params {P : Event → Bool} (hR : ∀ p, P (.readFile p) = true)
    (w : World) (kwargs : Kwargs) (n v : String) :
    ResAll P (check_template_params_exist w kwargs n v) := by
  unfold check_template_params_exist
  refine ResAll_rbind (ResAll_readTemplateR hR w v) (fun tp => ?_)
  refine ResAll_rbind (ResAll_pyIndex kwargs _) (fun p1 => ?_)
  refine ResAll_rbind (ResAll_pyIndex kwargs _) (fun p2 => ?_)
  cases checkTemplateParamsPure v [p1, p2] tp
  case error e => exact ResAll_rthrow _
  case ok u => exact ResAll_rok _

theorem ResAll_run_post_checks {P : Event → Bool} (n v : String) :
    ∀ posts : List (String → String → Res Unit),
      (∀ f ∈ posts, ∀ a b, ResAll P (f a b)) → ResAll P (run_post_checks n v posts)
  | [], _ => ResAll_rok _
  | f :: fs, h => by
    unfold run_post_checks
    refine ResAll_rbind (h f (by simp) n v) (fun _ => ?_)
    exact ResAll_run_post_checks n v fs (fun g hg a b => h g (by simp [hg]) a b)

theorem ResAll_check_parameters {P : Event → Bool} (n : String) (v : Option PyVal)
    (posts : List (String → String → Res Unit))
    (h : ∀ f ∈ posts, ∀ a b, ResAll P (f a b)) : ResAll P (_check_parameters n v posts) := by
  unfold _check_parameters
  match v with
  | none => exact ResAll_rthrow _
  | some .nonStr => exact ResAll_rthrow _
  | some (.str s) => exact ResAll_run_post_checks n s posts h

theorem ResAll_run_checks {P : Event → Bool} (kwargs : Kwargs) :
    ∀ checks : List (String × List (String → String → Res Unit)),
      (∀ c ∈ checks, ∀ f ∈ c.2, ∀ a b, ResAll P (f a b)) →
      ResAll P (run_checks kwargs checks)
  | [], _ => ResAll_rok _
  | (n, posts) :: rest, h => by
    unfold run_checks
    refine ResAll_rbind (ResAll_check_parameters n _ posts (h (n, posts) (by simp))) (fun _ => ?_)
    exact ResAll_run_checks kwargs rest (fun c hc => h c (by simp [hc]))

theorem ResAll_us_validation {P : Event → Bool} (hS : P .listStacks = true)
    (hR : ∀ p, P (.readFile p) = true) (w : World) (kwargs : Kwargs) :
    ResAll P (us_validation w kwargs) := by
  refine ResAll_run_checks kwargs _ (fun c hc f hf a b => ?_)
  simp only [us_validation_checks, List.mem_cons, List.not_mem_nil, or_false] at hc
  rcases hc with h | h | h | h | h | h <;> subst h <;> simp only [List.mem_cons, List.not_mem_nil, or_false] at hf
  · rw [hf]; exact ResAll_check_stack_exists hS w a b
  · rcases hf with hf | hf <;> rw [hf]
    · exact ResAll_check_file_exists w a b
    · exact ResAll_check_template_params hR w kwargs a b

theorem ResAll_save_validation {P : Event → Bool} (hB : P .listBuckets = true)
    (w : World) (kwargs : Kwargs) : ResAll P (run_checks kwargs (save_checks w)) := by
  refine ResAll_run_checks kwargs _ (fun c hc f hf a b => ?_)
  simp only [save_checks, List.mem_cons, List.not_mem_nil, or_false] at hc
  rcases hc with h | h | h | h <;> subst h <;> simp only [List.mem_cons, List.not_mem_nil, or_false] at hf
  · rw [hf]; exact ResAll_check_bucket_exists hB w a b
  · rw [hf]; exact ResAll_check_file_exists w a b
  · rw [hf]; exact ResAll_check_storage_class a b

theorem ResAll_waitGo {P : Event → Bool} (hD : ∀ c, P (.describeCS c) = true)
    (hSl : ∀ t, P (.sleepFor t) = true) (csid : String) :
    ∀ (rest : List ChangeSetResp) (t : Nat) (r : ChangeSetResp),
      ResAll P (waitGo csid t r rest)
  | [], t, r => by
    unfold waitGo
    exact ResAll_ite (ResAll_rok _) (ResAll_rthrow _)
  | r2 :: rs, t, r => by
    unfold waitGo
    refine ResAll_ite (ResAll_rok _) ?_
    refine ResAll_rbind (ResAll_remit (hSl t)) (fun _ => ?_)
    refine ResAll_rbind (ResAll_remit (hD csid)) (fun _ => ?_)
    exact ResAll_waitGo hD hSl csid rs (2 * t) r2

theorem ResAll_wait {P : Event → Bool} (hD : ∀ c, P (.describeCS c) = true)
    (hSl : ∀ t, P (.sleepFor t) = true) (csid : String) (stream : List ChangeSetResp) :
    ResAll P (wait_for_change_set csid stream) := by
  unfold wait_for_change_set
  match stream with
  | [] => exact ResAll_rthrow _
  | r :: rs =>
    exact ResAll_rbind (ResAll_remit (hD csid)) (fun _ => ResAll_waitGo hD hSl csid rs 2 r)

theorem ResAll_us_create {P : Event → Bool} (hR : ∀ p, P (.readFile p) = true)
    (hC : ∀ req, P (.createCS req) = true) (w : World) (kwargs : Kwargs) :
    ResAll P (us_create w kwargs) := by
  unfold us_create
  refine ResAll_rbind (ResAll_pyIndex _ _) (fun sn => ?_)
  refine ResAll_rbind (ResAll_pyIndex _ _) (fun tf => ?_)
  refine ResAll_rbind (ResAll_readFileR hR w _) (fun body => ?_)
  refine ResAll_rbind (ResAll_pyIndex _ _) (fun p1 => ?_)
  refine ResAll_rbind (ResAll_pyIndex _ _) (fun s3k => ?_)
  refine ResAll_rbind (ResAll_pyIndex _ _) (fun p2 => ?_)
  refine ResAll_rbind (ResAll_pyIndex _ _) (fun smr => ?_)
  refine ResAll_rbind (ResAll_pyIndex _ _) (fun desc => ?_)
  exact ResAll_rbind (ResAll_remit (hC _)) (fun _ => ResAll_rok _)

/-- Membership version of a `ResAll` fact. -/
theorem ResAll_mem {α : Type} {P : Event → Bool} {r : Res α} (h : ResAll P r) :
    ∀ e ∈ r.2, P e = true := by
  simpa [ResAll, List.all_eq_true] using h

theorem cseuGo_cons (v : String) (page : List Stack) (rest : List (List Stack)) :
    cseuGo v (page :: rest) =
      if page.any (fun s => s.name = v) then (Except.ok (), [Event.listStacks])
      else ((cseuGo v rest).1, Event.listStacks :: (cseuGo v rest).2) := by
  by_cases h : page.any (fun s => s.name = v) = true
  · simp [cseuGo, rbind, remit, rok, h]
  · simp [cseuGo, rbind, remit, rok, h]

theorem cseuGo_result (v : String) : ∀ pages : List (List Stack),
    ((cseuGo v pages).1 = Except.ok () ↔ ∃ p ∈ pages, ∃ s ∈ p, s.name = v) ∧
    ((¬ ∃ p ∈ pages, ∃ s ∈ p, s.name = v) →
      (cseuGo v pages).1 = Except.error (Err.stackNotFound v))
  | [] => by simp [cseuGo, rthrow]
  | page :: rest => by
    have ih := cseuGo_result v rest
    rw [cseuGo_cons]
    by_cases h : page.any (fun s => s.name = v) = true
    · rw [if_pos h]
      rcases List.any_eq_true.mp h with ⟨s, hs, hn⟩
      have hn' : s.name = v := by simpa using hn
      constructor
      · exact iff_of_true rfl ⟨page, by simp, s, hs, hn'⟩
      · intro hno
        exact absurd ⟨page, by simp, s, hs, hn'⟩ hno
    · have h' : page.any (fun s => s.name = v) = false := by
        simpa using h
      simp only [h', Bool.false_eq_true, if_false]
      have hpage : ¬ ∃ s ∈ page, s.name = v := by
        intro ⟨s, hs, hn⟩
        exact h (List.any_eq_true.mpr ⟨s, hs, by simpa using hn⟩)
      constructor
      · rw [ih.1]
        constructor
        · intro ⟨p, hp, hex⟩
          exact ⟨p, by simp [hp], hex⟩
        · intro ⟨p, hp, hex⟩
          rcases List.mem_cons.mp hp with rfl | hp2
          · exact absurd hex hpage
          · exact ⟨p, hp2, hex⟩
      · intro hno
        refine ih.2 (fun ⟨p, hp, hex⟩ => hno ⟨p, by simp [hp], hex⟩)

/-- C6: `check_stack_exists_and_updatable` exhausts every page of the
filtered stack listing: it succeeds exactly when the target name appears
on some page (however late), raises the stack-not-found error when it
appears on no page, and — when the pages are the
CREATE_COMPLETE or UPDATE_COMPLETE filtered view of a full stack list —
succeeds exactly when a stack of that name is present in one of those
two statuses. -/
theorem checkStackUpdatable_paginated (w : World) (pn v : String) :
    (((check_stack_exists_and_updatable w pn v).1 = Except.ok ()) ↔
       ∃ p ∈ w.stackPages, ∃ s ∈ p, s.name = v) ∧
    ((¬ ∃ p ∈ w.stackPages, ∃ s ∈ p, s.name = v) →
       (check_stack_exists_and_updatable w pn v).1 = Except.error (Err.stackNotFound v)) ∧
    (∀ sl : List Stack,
       w.stackPages.flatten =
         sl.filter (fun s => s.status = "CREATE_COMPLETE" || s.status = "UPDATE_COMPLETE") →
       (((check_stack_exists_and_updatable w pn v).1 = Except.ok ()) ↔
         ∃ s ∈ sl, s.name = v ∧
           (s.status = "CREATE_COMPLETE" ∨ s.status = "UPDATE_COMPLETE"))) := by
  have base := cseuGo_result v w.stackPages
  refine ⟨base.1, base.2, fun sl hflat => ?_⟩
  rw [show check_stack_exists_and_updatable w pn v = cseuGo v w.stackPages from rfl, base.1]
  have hmem : ∀ s : Stack, (∃ p ∈ w.stackPages, s ∈ p) ↔ s ∈ w.stackPages.flatten := by
    intro s
    simp [List.mem_flatten]
  constructor
  · intro ⟨p, hp, s, hs, hn⟩
    have : s ∈ w.stackPages.flatten := (hmem s).mp ⟨p, hp, hs⟩
    rw [hflat] at this
    have := List.mem_filter.mp this
    refine ⟨s, this.1, hn, ?_⟩
    simpa using this.2
  · intro ⟨s, hs, hn, hst⟩
    have : s ∈ w.stackPages.flatten := by
      rw [hflat]
      exact List.mem_filter.mpr ⟨hs, by simpa using hst⟩
    rcases (hmem s).mpr this with ⟨p, hp, hsp⟩
    exact ⟨p, hp, s, hsp, hn⟩

/-- Witness for C6: a listing whose target stack appears only on the
second page is found; a listing without it fails; the filtered view
matches a two-status stack list. -/
theorem checkStackUpdatable_paginated_witness :
    ((check_stack_exists_and_updatable
        { buckets := [], files := [], templates := [],
          stackPages := [[⟨"other", "CREATE_COMPLETE"⟩], [⟨"mystack", "UPDATE_COMPLETE"⟩]],
          changeSetId := "", uuidStr := "", createResponses := [], execResponses := [] }
        "StackName" "mystack").1 = Except.ok ()) ∧
    ((check_stack_exists_and_updatable
        { buckets := [], files := [], templates := [],
          stackPages := [[⟨"other", "CREATE_COMPLETE"⟩], [⟨"mystack", "UPDATE_COMPLETE"⟩]],
          changeSetId := "", uuidStr := "", createResponses := [], execResponses := [] }
        "StackName" "absent").1 = Except.error (Err.stackNotFound "absent")) := by
  constructor
  · exact (checkStackUpdatable_paginated _ "StackName" "mystack").1.mpr
      ⟨[⟨"mystack", "UPDATE_COMPLETE"⟩], by simp, ⟨"mystack", "UPDATE_COMPLETE"⟩, by simp, rfl⟩
  · exact (checkStackUpdatable_paginated _ "StackName" "absent").2.1 (by decide)

theorem find?_term_cons_pos {r : ChangeSetResp} (l : List ChangeSetResp)
    (h : isTerminalStatus r.status = true) :
    (r :: l).find? (fun x => isTerminalStatus x.status) = some r := by
  simp [List.find?, h]

theorem find?_term_cons_neg {r : ChangeSetResp} (l : List ChangeSetResp)
    (h : isTerminalStatus r.status = false) :
    (r :: l).find? (fun x => isTerminalStatus x.status) =
      l.find? (fun x => isTerminalStatus x.status) := by
  simp [List.find?, h]

theorem takeWhile_nonterm_cons_pos {r : ChangeSetResp} (l : List ChangeSetResp)
    (h : isTerminalStatus r.status = false) :
    (r :: l).takeWhile (fun x => !isTerminalStatus x.status) =
      r :: l.takeWhile (fun x => !isTerminalStatus x.status) := by
  simp [List.takeWhile, h]

theorem takeWhile_nonterm_cons_neg {r : ChangeSetResp} (l : List ChangeSetResp)
    (h : isTerminalStatus r.status = true) :
    (r :: l).takeWhile (fun x => !isTerminalStatus x.status) = [] := by
  simp [List.takeWhile, h]

theorem waitGo_ok_spec (csid : String) :
    ∀ (rest : List ChangeSetResp) (t : Nat) (r res : ChangeSetResp) (tr : List Event),
      waitGo csid t r rest = (Except.ok res, tr) →
      ((r :: rest).find? (fun x => isTerminalStatus x.status) = some res ∧
       sleepsOf tr =
         (List.range ((r :: rest).takeWhile (fun x => !isTerminalStatus x.status)).length).map
           (fun i => t * 2 ^ i))
  | [], t, r, res, tr => by
    intro h
    unfold waitGo at h
    by_cases hterm : isTerminalStatus r.status = true
    · rw [if_pos hterm] at h
      simp only [rok, Prod.mk.injEq, Except.ok.injEq] at h
      obtain ⟨h1, h2⟩ := h
      subst h1
      subst h2
      constructor
      · exact find?_term_cons_pos _ hterm
      · rw [takeWhile_nonterm_cons_neg _ hterm]
        simp [sleepsOf]
    · rw [if_neg hterm] at h
      simp [rthrow] at h
  | r2 :: rs, t, r, res, tr => by
    intro h
    unfold waitGo at h
    by_cases hterm : isTerminalStatus r.status = true
    · rw [if_pos hterm] at h
      simp only [rok, Prod.mk.injEq, Except.ok.injEq] at h
      obtain ⟨h1, h2⟩ := h
      subst h1
      subst h2
      constructor
      · exact find?_term_cons_pos _ hterm
      · rw [takeWhile_nonterm_cons_neg _ hterm]
        simp [sleepsOf]
    · rw [if_neg hterm] at h
      simp only [rbind, remit, List.singleton_append, List.cons_append, List.nil_append,
        Prod.mk.injEq] at h
      obtain ⟨h1, h2⟩ := h
      have hW : waitGo csid (2 * t) r2 rs = (Except.ok res, (waitGo csid (2 * t) r2 rs).2) := by
        rw [← h1]
      have ih := waitGo_ok_spec csid rs (2 * t) r2 res _ hW
      have hterm' : isTerminalStatus r.status = false := by simpa using hterm
      constructor
      · rw [find?_term_cons_neg _ hterm']
        exact ih.1
      · rw [← h2]
        rw [takeWhile_nonterm_cons_pos _ hterm']
        show t :: sleepsOf ((waitGo csid (2 * t) r2 rs).2) = _
        rw [ih.2, List.length_cons, List.range_succ_eq_map, List.map_cons, List.map_map]
        congr 1
        · simp
        · refine List.map_congr_left (fun i _ => ?_)
          simp only [Function.comp_apply, pow_succ]
          ring

/-- C5: when `wait_for_change_set` returns, the sleep intervals it
performed are exactly 2^(i+1) seconds for i = 0, 1, ... — so they start
at 2 seconds and strictly double with no upper bound — and the returned
response is the first response of the stream whose status is terminal
(CREATE_COMPLETE or FAILED); polling stops there. -/
theorem wait_backoff_and_first_terminal (csid : String) (stream : List ChangeSetResp)
    (res : ChangeSetResp) (tr : List Event)
    (h : wait_for_change_set csid stream = (Except.ok res, tr)) :
    stream.find? (fun x => isTerminalStatus x.status) = some res ∧
    sleepsOf tr =
      (List.range ((stream.takeWhile (fun x => !isTerminalStatus x.status)).length)).map
        (fun i => 2 ^ (i + 1)) := by
  match stream with
  | [] => simp [wait_for_change_set, rthrow] at h
  | r :: rs =>
    simp only [wait_for_change_set, rbind, remit, List.singleton_append, List.nil_append,
      Prod.mk.injEq] at h
    obtain ⟨h1, h2⟩ := h
    have hW : waitGo csid 2 r rs = (Except.ok res, (waitGo csid 2 r rs).2) := by
      rw [← h1]
    have ih := waitGo_ok_spec csid rs 2 r res _ hW
    refine ⟨ih.1, ?_⟩
    rw [← h2]
    show sleepsOf ((waitGo csid 2 r rs).2) = _
    rw [ih.2]
    refine List.map_congr_left (fun i _ => ?_)
    rw [pow_succ]
    ring

/-- Witness for C5: a stream whose third response is the first terminal
one gives exactly the sleeps 2 and 4 and returns that third response. -/
theorem wait_backoff_and_first_terminal_witness :
    [(⟨"CREATE_IN_PROGRESS", "", "", []⟩ : ChangeSetResp), ⟨"CREATE_IN_PROGRESS", "", "", []⟩,
        ⟨"CREATE_COMPLETE", "", "AVAILABLE", []⟩].find?
      (fun x => isTerminalStatus x.status) = some ⟨"CREATE_COMPLETE", "", "AVAILABLE", []⟩ ∧
    sleepsOf [Event.describeCS "cs", Event.sleepFor 2, Event.describeCS "cs",
        Event.sleepFor 4, Event.describeCS "cs"] =
      (List.range (([(⟨"CREATE_IN_PROGRESS", "", "", []⟩ : ChangeSetResp),
          ⟨"CREATE_IN_PROGRESS", "", "", []⟩,
          ⟨"CREATE_COMPLETE", "", "AVAILABLE", []⟩].takeWhile
            (fun x => !isTerminalStatus x.status)).length)).map (fun i => 2 ^ (i + 1)) :=
  wait_backoff_and_first_terminal "cs" _ _ _ (by rfl)

theorem tplParamGet_del_ne (p1 p2 : String) (h : p1 ≠ p2) :
    ∀ tp : TemplateParams,
      tplParamGet (tplParamDel tp (.str p1)) (.str p2) = tplParamGet tp (.str p2)
  | [] => rfl
  | kv :: rest => by
    by_cases hk : kv.1 = p1
    · have hk2 : ¬ (kv.1 = p2) := fun hc => h (hk ▸ hc ▸ rfl)
      simp [tplParamDel, tplParamGet, List.eraseP_cons, List.find?, hk, hk2, h]
    · by_cases hk2 : kv.1 = p2
      · simp [tplParamDel, tplParamGet, List.eraseP_cons, List.find?, hk, hk2, Ne.symm h]
      · have ih := tplParamGet_del_ne p1 p2 h rest
        simpa [tplParamGet, tplParamDel, List.eraseP_cons, List.find?, hk, hk2] using ih

theorem mem_del_of_nodup (k : String) :
    ∀ tp : TemplateParams, (tp.map Prod.fst).Nodup →
      ∀ kv : String × ParamSpec, kv ∈ tplParamDel tp (.str k) → kv ∈ tp ∧ kv.1 ≠ k
  | [], _, kv, h => by simp [tplParamDel] at h
  | hd :: rest, hnd, kv, h => by
    rw [List.map_cons, List.nodup_cons] at hnd
    by_cases hk : hd.1 = k
    · rw [show tplParamDel (hd :: rest) (.str k) = rest by
        simp [tplParamDel, List.eraseP_cons, hk]] at h
      refine ⟨List.mem_cons_of_mem hd h, fun hc => ?_⟩
      exact hnd.1 (hk ▸ hc ▸ List.mem_map_of_mem Prod.fst h)
    · rw [show tplParamDel (hd :: rest) (.str k) = hd :: tplParamDel rest (.str k) by
        simp [tplParamDel, List.eraseP_cons, hk]] at h
      rcases List.mem_cons.mp h with rfl | h2
      · exact ⟨List.mem_cons_self _ _, hk⟩
      · have := mem_del_of_nodup k rest hnd.2 kv h2
        exact ⟨List.mem_cons_of_mem hd this.1, this.2⟩

theorem mem_del_of_ne (k : String) :
    ∀ tp : TemplateParams, ∀ kv : String × ParamSpec,
      kv ∈ tp → kv.1 ≠ k → kv ∈ tplParamDel tp (.str k)
  | [], kv, h, _ => by simp at h
  | hd :: rest, kv, h, hne => by
    by_cases hk : hd.1 = k
    · rw [show tplParamDel (hd :: rest) (.str k) = rest by
        simp [tplParamDel, List.eraseP_cons, hk]]
      rcases List.mem_cons.mp h with rfl | h2
      · exact absurd hk hne
      · exact h2
    · rw [show tplParamDel (hd :: rest) (.str k) = hd :: tplParamDel rest (.str k) by
        simp [tplParamDel, List.eraseP_cons, hk]]
      rcases List.mem_cons.mp h with rfl | h2
      · exact List.mem_cons_self _ _
      · exact List.mem_cons_of_mem hd (mem_del_of_ne k rest kv h2 hne)

theorem nodup_del (k : String) (tp : TemplateParams) (hnd : (tp.map Prod.fst).Nodup) :
    ((tplParamDel tp (.str k)).map Prod.fst).Nodup := by
  refine hnd.sublist (List.Sublist.map Prod.fst ?_)
  exact List.eraseP_sublist tp

theorem checkRemaining_ok (tmpl : String) (tp : TemplateParams)
    (h : ∀ kv ∈ tp, kv.2.default ≠ none) : checkRemaining tmpl tp = Except.ok () := by
  unfold checkRemaining
  have hfind : tp.find? (fun kv => kv.2.default = none) = none := by
    rw [List.find?_eq_none]
    intro kv hkv
    simpa using h kv hkv
  rw [hfind]
  split <;> rfl

theorem checkRemaining_err (tmpl : String) (tp : TemplateParams)
    (h : ∃ kv ∈ tp, kv.2.default = none) :
    ∃ kv, kv ∈ tp ∧ kv.2.default = none ∧
      checkRemaining tmpl tp = Except.error (Err.paramWithoutDefault tmpl kv.1) := by
  rcases h with ⟨kv0, hkv0, hd0⟩
  have hne : tp.find? (fun kv => kv.2.default = none) ≠ none := by
    intro hnone
    rw [List.find?_eq_none] at hnone
    exact absurd (by simpa using hd0) (by simpa using hnone kv0 hkv0)
  rcases Option.ne_none_iff_exists.mp hne with ⟨kv1, hkv1⟩
  refine ⟨kv1, List.mem_of_find?_eq_some hkv1.symm, by simpa using List.find?_some hkv1.symm, ?_⟩
  unfold checkRemaining
  have hlen : ¬ tp.length = 0 := by
    intro h0
    rw [List.length_eq_zero] at h0
    subst h0
    simp at hkv0
  rw [if_neg hlen, ← hkv1]

/-- C7: `check_template_params_exist`'s core succeeds on every template
whose parameter set declares both (distinct) required names and gives
every other declared parameter a default, however many other parameters
exist; it fails naming the missing required parameter and the template
when a required name is undeclared, and fails naming some defaultless
non-required parameter when one exists. -/
theorem checkTemplateParameters_spec (p1 p2 tmpl : String) (tp : TemplateParams)
    (hne : p1 ≠ p2) (hnd : (tp.map Prod.fst).Nodup) :
    (((tplParamGet tp (.str p1)).isSome ∧ (tplParamGet tp (.str p2)).isSome ∧
        (∀ kv ∈ tp, kv.1 ≠ p1 → kv.1 ≠ p2 → kv.2.default ≠ none)) →
      checkTemplateParamsPure tmpl [.str p1, .str p2] tp = Except.ok ()) ∧
    (tplParamGet tp (.str p1) = none →
      checkTemplateParamsPure tmpl [.str p1, .str p2] tp =
        Except.error (Err.missingTemplateParam (.str p1) tmpl)) ∧
    (((tplParamGet tp (.str p1)).isSome ∧ tplParamGet tp (.str p2) = none) →
      checkTemplateParamsPure tmpl [.str p1, .str p2] tp =
        Except.error (Err.missingTemplateParam (.str p2) tmpl)) ∧
    (((tplParamGet tp (.str p1)).isSome ∧ (tplParamGet tp (.str p2)).isSome ∧
        ∃ kv ∈ tp, kv.1 ≠ p1 ∧ kv.1 ≠ p2 ∧ kv.2.default = none) →
      ∃ k, (∃ spec, (k, spec) ∈ tp ∧ k ≠ p1 ∧ k ≠ p2 ∧ spec.default = none) ∧
        checkTemplateParamsPure tmpl [.str p1, .str p2] tp =
          Except.error (Err.paramWithoutDefault tmpl k)) := by
  refine ⟨?_, ?_, ?_, ?_⟩
  · rintro ⟨h1, h2, hdef⟩
    rcases Option.isSome_iff_exists.mp h1 with ⟨s1, hs1⟩
    have h2' : tplParamGet (tplParamDel tp (.str p1)) (.str p2) = tplParamGet tp (.str p2) :=
      tplParamGet_del_ne p1 p2 hne tp
    rcases Option.isSome_iff_exists.mp h2 with ⟨s2, hs2⟩
    unfold checkTemplateParamsPure removeRequired
    rw [hs1]
    unfold removeRequired
    rw [h2', hs2]
    unfold removeRequired
    refine checkRemaining_ok tmpl _ (fun kv hkv => ?_)
    have step2 := mem_del_of_nodup p2 (tplParamDel tp (.str p1)) (nodup_del p1 tp hnd) kv hkv
    have step1 := mem_del_of_nodup p1 tp hnd kv step2.1
    exact hdef kv step1.1 step1.2 step2.2
  · intro h1
    unfold checkTemplateParamsPure removeRequired
    rw [h1]
  · rintro ⟨h1, h2⟩
    rcases Option.isSome_iff_exists.mp h1 with ⟨s1, hs1⟩
    have h2' : tplParamGet (tplParamDel tp (.str p1)) (.str p2) = none :=
      (tplParamGet_del_ne p1 p2 hne tp).trans h2
    unfold checkTemplateParamsPure removeRequired
    rw [hs1]
    unfold removeRequired
    rw [h2']
  · rintro ⟨h1, h2, kv, hkv, hkp1, hkp2, hdef⟩
    rcases Option.isSome_iff_exists.mp h1 with ⟨s1, hs1⟩
    have h2' : tplParamGet (tplParamDel tp (.str p1)) (.str p2) = tplParamGet tp (.str p2) :=
      tplParamGet_del_ne p1 p2 hne tp
    rcases Option.isSome_iff_exists.mp h2 with ⟨s2, hs2⟩
    have hkv2 : kv ∈ tplParamDel (tplParamDel tp (.str p1)) (.str p2) :=
      mem_del_of_ne p2 _ kv (mem_del_of_ne p1 tp kv hkv hkp1) hkp2
    rcases checkRemaining_err tmpl _ ⟨kv, hkv2, hdef⟩ with ⟨kv1, hkv1, hd1, herr⟩
    have s2' := mem_del_of_nodup p2 (tplParamDel tp (.str p1)) (nodup_del p1 tp hnd) kv1 hkv1
    have s1' := mem_del_of_nodup p1 tp hnd kv1 s2'.1
    refine ⟨kv1.1, ⟨kv1.2, by simpa using s1'.1, s1'.2, s2'.2, hd1⟩, ?_⟩
    unfold checkTemplateParamsPure removeRequired
    rw [hs1]
    unfold removeRequired
    rw [h2', hs2]
    unfold removeRequired
    exact herr

/-- Witness for C7: a template declaring S3Key, SMResource and two
defaulted extras passes; dropping SMResource fails naming it; an extra
without a default fails naming the extra. -/
theorem checkTemplateParameters_spec_witness :
    checkTemplateParamsPure "t.cform" [.str "S3Key", .str "SMResource"]
      [("S3Key", ⟨none⟩), ("SMResource", ⟨none⟩), ("Extra1", ⟨some "d1"⟩), ("Extra2", ⟨some "d2"⟩)] =
      Except.ok () ∧
    checkTemplateParamsPure "t.cform" [.str "S3Key", .str "SMResource"]
      [("S3Key", ⟨none⟩), ("Extra1", ⟨some "d1"⟩)] =
      Except.error (Err.missingTemplateParam (.str "SMResource") "t.cform") ∧
    checkTemplateParamsPure "t.cform" [.str "S3Key", .str "SMResource"]
      [("S3Key", ⟨none⟩), ("SMResource", ⟨none⟩), ("Bad", ⟨none⟩)] =
      Except.error (Err.paramWithoutDefault "t.cform" "Bad") := by
  refine ⟨?_, ?_, ?_⟩
  · exact (checkTemplateParameters_spec "S3Key" "SMResource" "t.cform" _
      (by decide) (by decide)).1 ⟨by decide, by decide, by decide⟩
  · exact (checkTemplateParameters_spec "S3Key" "SMResource" "t.cform" _
      (by decide) (by decide)).2.2.1 ⟨by decide, by decide⟩
  · rcases (checkTemplateParameters_spec "S3Key" "SMResource" "t.cform"
      [("S3Key", ⟨none⟩), ("SMResource", ⟨none⟩), ("Bad", ⟨none⟩)]
      (by decide) (by decide)).2.2.2
      ⟨by decide, by decide, ("Bad", ⟨none⟩), by decide, by decide, by decide, rfl⟩
      with ⟨k, hk, herr⟩
    have : k = "Bad" := by
      rcases hk with ⟨spec, hmem, hk1, hk2, hdef⟩
      simp only [List.mem_cons, List.not_mem_nil, or_false, Prod.mk.injEq] at hmem
      rcases hmem with ⟨h, _⟩ | ⟨h, _⟩ | ⟨h, _⟩
      · exact absurd h hk1
      · exact absurd h hk2
      · exact h
    rwa [this] at herr

theorem rbind_rok {α β : Type} (x : α) (f : α → Res β) : rbind (rok x) f = f x := by
  simp [rbind, rok]

theorem rbind_remit {β : Type} (ev : Event) (f : Unit → Res β) :
    rbind (remit ev) f = ((f ()).1, ev :: (f ()).2) := by
  simp [rbind, remit]

/-- C8: after the second terminal wait that follows `execute_change_set`,
`update_stack` fails with the execution-FAILED error (surfacing the
platform's stated reason) when the final status is FAILED, fails with the
execution-state error when the post-execution execution status is
anything other than AVAILABLE, and succeeds exactly when neither failure
occurs. -/
theorem update_stack_final_status (w : World) (kwargs : Kwargs) (csid : String)
    (resp resp2 : ChangeSetResp) (smr : PyVal)
    (hval : (us_validation w kwargs).1 = Except.ok ())
    (hcr : (us_create w kwargs).1 = Except.ok csid)
    (hw1 : (wait_for_change_set csid w.createResponses).1 = Except.ok resp)
    (hsm : pyGet kwargs "SMResource" = some smr)
    (hst : resp.status ≠ "FAILED")
    (hmatch : resp.changes.any (fun c => changeMatches smr c) = true)
    (hw2 : (wait_for_change_set csid w.execResponses).1 = Except.ok resp2) :
    (resp2.status = "FAILED" →
       (update_stack w kwargs).1 = Except.error (Err.executionFailed csid resp2.statusReason)) ∧
    (resp2.status ≠ "FAILED" → resp2.executionStatus ≠ "AVAILABLE" →
       (update_stack w kwargs).1 = Except.error (Err.executionState csid resp2.executionStatus)) ∧
    (resp2.status ≠ "FAILED" → resp2.executionStatus = "AVAILABLE" →
       (update_stack w kwargs).1 = Except.ok ()) := by
  have hgate : us_scope_gate csid resp smr = rok () := by
    simp [us_scope_gate, hst, hmatch]
  have hrun : (update_stack w kwargs).1 = (final_status_check csid resp2).1 := by
    simp [update_stack, rbind_fst_ok hval, rbind_fst_ok hcr, rbind_fst_ok hw1,
      pyIndex, hsm, rbind_rok, hgate, rbind_remit, rbind_fst_ok hw2]
  refine ⟨fun hf => ?_, fun hnf hna => ?_, fun hnf ha => ?_⟩
  · rw [hrun]
    simp [final_status_check, hf, rthrow]
  · rw [hrun]
    simp [final_status_check, hnf, hna, rthrow]
  · rw [hrun]
    simp [final_status_check, hnf, ha, rok]

/-- Witness for C8: a full concrete run in which the change set is
created, validated, executed and settles with status CREATE_COMPLETE and
execution status AVAILABLE reports success. -/
theorem update_stack_final_status_witness :
    (("CREATE_COMPLETE" : String) = "FAILED" →
       (update_stack
         { buckets := ["bkt"],
           files := [("wf.json", "workflowbody"), ("tmpl.cform", "templatebody")],
           templates := [("tmpl.cform", [("S3Key", ⟨none⟩), ("SMResource", ⟨none⟩)])],
           stackPages := [[⟨"mystack", "CREATE_COMPLETE"⟩]],
           changeSetId := "cs-1", uuidStr := "u-1",
           createResponses := [⟨"CREATE_COMPLETE", "", "AVAILABLE", [⟨"MyStateMachine"⟩]⟩],
           execResponses := [⟨"CREATE_COMPLETE", "", "AVAILABLE", [⟨"MyStateMachine"⟩]⟩] }
         [("StackName", .str "mystack"), ("Description", .str "d"),
          ("TemplateFileName", .str "tmpl.cform"), ("S3KeyParameterName", .str "S3Key"),
          ("SMResourceParameterName", .str "SMResource"), ("SMResource", .str "MyStateMachine"),
          ("S3Key", .str "s3://bkt/wf.json")]).1 =
         Except.error (Err.executionFailed "cs-1" "")) ∧
    (("CREATE_COMPLETE" : String) ≠ "FAILED" → ("AVAILABLE" : String) ≠ "AVAILABLE" →
       (update_stack
         { buckets := ["bkt"],
           files := [("wf.json", "workflowbody"), ("tmpl.cform", "templatebody")],
           templates := [("tmpl.cform", [("S3Key", ⟨none⟩), ("SMResource", ⟨none⟩)])],
           stackPages := [[⟨"mystack", "CREATE_COMPLETE"⟩]],
           changeSetId := "cs-1", uuidStr := "u-1",
           createResponses := [⟨"CREATE_COMPLETE", "", "AVAILABLE", [⟨"MyStateMachine"⟩]⟩],
           execResponses := [⟨"CREATE_COMPLETE", "", "AVAILABLE", [⟨"MyStateMachine"⟩]⟩] }
         [("StackName", .str "mystack"), ("Description", .str "d"),
          ("TemplateFileName", .str "tmpl.cform"), ("S3KeyParameterName", .str "S3Key"),
          ("SMResourceParameterName", .str "SMResource"), ("SMResource", .str "MyStateMachine"),
          ("S3Key", .str "s3://bkt/wf.json")]).1 =
         Except.error (Err.executionState "cs-1" "AVAILABLE")) ∧
    (("CREATE_COMPLETE" : String) ≠ "FAILED" → ("AVAILABLE" : String) = "AVAILABLE" →
       (update_stack
         { buckets := ["bkt"],
           files := [("wf.json", "workflowbody"), ("tmpl.cform", "templatebody")],
           templates := [("tmpl.cform", [("S3Key", ⟨none⟩), ("SMResource", ⟨none⟩)])],
           stackPages := [[⟨"mystack", "CREATE_COMPLETE"⟩]],
           changeSetId := "cs-1", uuidStr := "u-1",
           createResponses := [⟨"CREATE_COMPLETE", "", "AVAILABLE", [⟨"MyStateMachine"⟩]⟩],
           execResponses := [⟨"CREATE_COMPLETE", "", "AVAILABLE", [⟨"MyStateMachine"⟩]⟩] }
         [("StackName", .str "mystack"), ("Description", .str "d"),
          ("TemplateFileName", .str "tmpl.cform"), ("S3KeyParameterName", .str "S3Key"),
          ("SMResourceParameterName", .str "SMResource"), ("SMResource", .str "MyStateMachine"),
          ("S3Key", .str "s3://bkt/wf.json")]).1 = Except.ok ()) :=
  update_stack_final_status _ _ "cs-1"
    ⟨"CREATE_COMPLETE", "", "AVAILABLE", [⟨"MyStateMachine"⟩]⟩
    ⟨"CREATE_COMPLETE", "", "AVAILABLE", [⟨"MyStateMachine"⟩]⟩
    (.str "MyStateMachine") (by rfl) (by rfl) (by rfl) (by rfl) (by decide) (by rfl) (by rfl)

theorem rbind_rthrow {α β : Type} (e : Err) (f : α → Res β) :
    rbind (rthrow e) f = (Except.error e, []) := rfl

/-- C1: the scope gate of `update_stack`: when the created change set is
not FAILED and its proposed-changes list contains no entry whose logical
resource id equals the expected resource — including when the list is
empty — the run raises the scope error and aborts with no
`execute_change_set` call anywhere in its trace; when at least one entry
matches, the gate passes and the execute call is issued. -/
theorem scope_gate_spec (w : World) (kwargs : Kwargs) (csid : String)
    (resp : ChangeSetResp) (smr : PyVal)
    (hval : (us_validation w kwargs).1 = Except.ok ())
    (hcr : (us_create w kwargs).1 = Except.ok csid)
    (hw1 : (wait_for_change_set csid w.createResponses).1 = Except.ok resp)
    (hsm : pyGet kwargs "SMResource" = some smr)
    (hst : resp.status ≠ "FAILED") :
    (resp.changes.any (fun c => changeMatches smr c) = false →
       (update_stack w kwargs).1 = Except.error (Err.scopeError csid smr) ∧
       (update_stack w kwargs).2.all (fun e => !isExecuteCSEv e) = true) ∧
    (resp.changes.any (fun c => changeMatches smr c) = true →
       Event.executeCS csid ∈ (update_stack w kwargs).2) := by
  constructor
  · intro hmatch
    have hgate : us_scope_gate csid resp smr = rthrow (Err.scopeError csid smr) := by
      simp [us_scope_gate, hst, hmatch, rthrow]
    have hv := ResAll_us_validation (P := fun e => !isExecuteCSEv e) rfl (fun _ => rfl) w kwargs
    have hc := ResAll_us_create (P := fun e => !isExecuteCSEv e) (fun _ => rfl) (fun _ => rfl)
      w kwargs
    have hw := ResAll_wait (P := fun e => !isExecuteCSEv e) (fun _ => rfl) (fun _ => rfl)
      csid w.createResponses
    simp only [ResAll] at hv hc hw
    constructor
    · simp [update_stack, rbind_fst_ok hval, rbind_fst_ok hcr, rbind_fst_ok hw1,
        pyIndex, hsm, rbind_rok, hgate, rbind_rthrow]
    · simp [update_stack, rbind_fst_ok hval, rbind_fst_ok hcr, rbind_fst_ok hw1,
        pyIndex, hsm, rbind_rok, hgate, rbind_rthrow, List.all_append, hv, hc, hw]
  · intro hmatch
    have hgate : us_scope_gate csid resp smr = rok () := by
      simp [us_scope_gate, hst, hmatch]
    simp [update_stack, rbind_fst_ok hval, rbind_fst_ok hcr, rbind_fst_ok hw1,
      pyIndex, hsm, rbind_rok, hgate, rbind_remit, List.mem_append]

/-- Witness for C1: a change set that reports CREATE_COMPLETE with an
empty proposed-changes list makes the deployment abort with the scope
error and no execute call is recorded. -/
theorem scope_gate_spec_witness :
    (([] : List ResourceChange).any (fun c => changeMatches (.str "MyStateMachine") c) = false →
       (update_stack
         { buckets := ["bkt"],
           files := [("wf.json", "workflowbody"), ("tmpl.cform", "templatebody")],
           templates := [("tmpl.cform", [("S3Key", ⟨none⟩), ("SMResource", ⟨none⟩)])],
           stackPages := [[⟨"mystack", "CREATE_COMPLETE"⟩]],
           changeSetId := "cs-9", uuidStr := "u-9",
           createResponses := [⟨"CREATE_COMPLETE", "", "AVAILABLE", []⟩],
           execResponses := [] }
         [("StackName", .str "mystack"), ("Description", .str "d"),
          ("TemplateFileName", .str "tmpl.cform"), ("S3KeyParameterName", .str "S3Key"),
          ("SMResourceParameterName", .str "SMResource"), ("SMResource", .str "MyStateMachine"),
          ("S3Key", .str "s3://bkt/wf.json")]).1 =
           Except.error (Err.scopeError "cs-9" (.str "MyStateMachine")) ∧
       (update_stack
         { buckets := ["bkt"],
           files := [("wf.json", "workflowbody"), ("tmpl.cform", "templatebody")],
           templates := [("tmpl.cform", [("S3Key", ⟨none⟩), ("SMResource", ⟨none⟩)])],
           stackPages := [[⟨"mystack", "CREATE_COMPLETE"⟩]],
           changeSetId := "cs-9", uuidStr := "u-9",
           createResponses := [⟨"CREATE_COMPLETE", "", "AVAILABLE", []⟩],
           execResponses := [] }
         [("StackName", .str "mystack"), ("Description", .str "d"),
          ("TemplateFileName", .str "tmpl.cform"), ("S3KeyParameterName", .str "S3Key"),
          ("SMResourceParameterName", .str "SMResource"), ("SMResource", .str "MyStateMachine"),
          ("S3Key", .str "s3://bkt/wf.json")]).2.all (fun e => !isExecuteCSEv e) = true) ∧
    (([] : List ResourceChange).any (fun c => changeMatches (.str "MyStateMachine") c) = true →
       Event.executeCS "cs-9" ∈
         (update_stack
           { buckets := ["bkt"],
             files := [("wf.json", "workflowbody"), ("tmpl.cform", "templatebody")],
             templates := [("tmpl.cform", [("S3Key", ⟨none⟩), ("SMResource", ⟨none⟩)])],
             stackPages := [[⟨"mystack", "CREATE_COMPLETE"⟩]],
             changeSetId := "cs-9", uuidStr := "u-9",
             createResponses := [⟨"CREATE_COMPLETE", "", "AVAILABLE", []⟩],
             execResponses := [] }
           [("StackName", .str "mystack"), ("Description", .str "d"),
            ("TemplateFileName", .str "tmpl.cform"), ("S3KeyParameterName", .str "S3Key"),
            ("SMResourceParameterName", .str "SMResource"), ("SMResource", .str "MyStateMachine"),
            ("S3Key", .str "s3://bkt/wf.json")]).2) :=
  scope_gate_spec _ _ "cs-9" ⟨"CREATE_COMPLETE", "", "AVAILABLE", []⟩ (.str "MyStateMachine")
    (by rfl) (by rfl) (by rfl) (by rfl) (by decide)

theorem pyGet_filterKeys_mem (keys : List String) (k : String) (hmem : keys.contains k = true) :
    ∀ kwargs : Kwargs, pyGet (filterKeys keys kwargs) k = pyGet kwargs k
  | [] => rfl
  | kv :: rest => by
    have ih := pyGet_filterKeys_mem keys k hmem rest
    by_cases hkeep : keys.contains kv.1 = true
    · have hkeepm : kv.1 ∈ keys := by simpa using hkeep
      rw [show filterKeys keys (kv :: rest) = kv :: filterKeys keys rest from by
        simp [filterKeys, List.filter_cons, hkeepm]]
      by_cases hk : kv.1 = k
      · rw [show pyGet (kv :: filterKeys keys rest) k = some kv.2 from by
          simp [pyGet, List.find?, hk]]
        rw [show pyGet (kv :: rest) k = some kv.2 from by simp [pyGet, List.find?, hk]]
      · rw [show pyGet (kv :: filterKeys keys rest) k = pyGet (filterKeys keys rest) k from by
          simp [pyGet, List.find?, hk]]
        rw [show pyGet (kv :: rest) k = pyGet rest k from by simp [pyGet, List.find?, hk]]
        exact ih
    · have hkeepm : kv.1 ∉ keys := by simpa using hkeep
      have hk : ¬ (kv.1 = k) := fun hc => hkeep (hc ▸ hmem)
      rw [show filterKeys keys (kv :: rest) = filterKeys keys rest from by
        simp [filterKeys, List.filter_cons, hkeepm]]
      rw [show pyGet (kv :: rest) k = pyGet rest k from by simp [pyGet, List.find?, hk]]
      exact ih

theorem pyGet_filterKeys_not_mem (keys : List String) (k : String)
    (hmem : keys.contains k = false) :
    ∀ kwargs : Kwargs, pyGet (filterKeys keys kwargs) k = none
  | [] => rfl
  | kv :: rest => by
    have ih := pyGet_filterKeys_not_mem keys k hmem rest
    by_cases hkeep : keys.contains kv.1 = true
    · have hkeepm : kv.1 ∈ keys := by simpa using hkeep
      have hk : ¬ (kv.1 = k) := by
        intro hc
        rw [hc] at hkeep
        rw [hkeep] at hmem
        exact Bool.true_eq_false.mp hmem
      rw [show filterKeys keys (kv :: rest) = kv :: filterKeys keys rest from by
        simp [filterKeys, List.filter_cons, hkeepm]]
      rw [show pyGet (kv :: filterKeys keys rest) k = pyGet (filterKeys keys rest) k from by
        simp [pyGet, List.find?, hk]]
      exact ih
    · have hkeepm : kv.1 ∉ keys := by simpa using hkeep
      rw [show filterKeys keys (kv :: rest) = filterKeys keys rest from by
        simp [filterKeys, List.filter_cons, hkeepm]]
      exact ih

theorem pyGet_append (k : String) (l1 l2 : Kwargs) :
    pyGet (l1 ++ l2) k =
      match pyGet l1 k with
      | some v => some v
      | none => pyGet l2 k := by
  unfold pyGet
  rw [List.find?_append]
  cases List.find? (fun kv => kv.1 = k) l1 <;> rfl

theorem pyGet_uw_forward (kwargs : Kwargs) (b k0 : PyVal) (k : String)
    (hmem : updateKeys.contains k = true) :
    pyGet (uw_update_kwargs kwargs b k0) k = pyGet kwargs k := by
  unfold uw_update_kwargs
  rw [pyGet_append, pyGet_filterKeys_mem updateKeys k hmem kwargs]
  have hk : ¬ (("S3Key" : String) = k) := by
    intro hc
    rw [← hc] at hmem
    revert hmem
    decide
  cases hcase : pyGet kwargs k with
  | some v => rfl
  | none => simp [pyGet, List.find?, hk]

theorem pyGet_uw_s3key (kwargs : Kwargs) (b k0 : PyVal) :
    pyGet (uw_update_kwargs kwargs b k0) "S3Key" = some (.str (s3Url b k0)) := by
  unfold uw_update_kwargs
  rw [pyGet_append, pyGet_filterKeys_not_mem updateKeys "S3Key" (by decide) kwargs]
  simp [pyGet, List.find?]

/-- A successful publish run: with all four parameters present and valid,
the bucket known, the source file on disk with contents `body`, the run
issues exactly a bucket listing, the file read, and one `put_object`
carrying the file bytes, content type application/json and the
hard-coded storage class STANDARD. -/
theorem save_success_run (w : World) (kwargs : Kwargs) (b key src sc body : String)
    (hb : pyGet kwargs "Bucket" = some (.str b))
    (hk : pyGet kwargs "Key" = some (.str key))
    (hsf : pyGet kwargs "SourceFileName" = some (.str src))
    (hsc : pyGet kwargs "S3StorageClass" = some (.str sc))
    (hscv : (["STANDARD", "STANDARD_IA", "ONEZONE_IA"] : List String).contains sc = true)
    (hbx : w.buckets.any (fun x => x = b) = true)
    (hfx : w.files.any (fun kv => kv.1 = src) = true)
    (hlook : fsLookup w src = some body) :
    save_workflow_to_s3 w kwargs =
      (Except.ok (), [Event.listBuckets, Event.readFile src,
        Event.putObject (.str b) (.str key) body "application/json" "STANDARD"]) := by
  have hscv2 : sc = "STANDARD" ∨ sc = "STANDARD_IA" ∨ sc = "ONEZONE_IA" := by
    simpa using hscv
  have hrc : run_checks kwargs (save_checks w) = (Except.ok (), [Event.listBuckets]) := by
    simp [run_checks, save_checks, _check_parameters, hb, hk, hsf, hsc, run_post_checks,
      check_bucket_exists, hbx, _check_file_exists, hfx, check_storage_class, hscv2,
      rbind_rok, rbind_remit, rbind, rok, remit]
  simp [save_workflow_to_s3, hrc, rbind, pyIndex, hb, hk, hsf, rok, rbind_rok,
    readFileR, hlook, pyToString, rbind_remit, remit]

/-- C2 counterexample: a deployment whose target stack appears on no
page of the listing aborts with the stack-not-found precondition error,
yet its trace already contains a blob-store write — `update_workflow`
publishes to S3 before `update_stack` validates the stack, so the claim
that no putObject precedes the abort is false on this input. -/
theorem stack_absent_write_before_abort :
    (update_workflow
      { buckets := ["bktX"], files := [("wfX.json", "bodyX"), ("tX.cform", "tbodyX")],
        templates := [("tX.cform", [("S3Key", ⟨none⟩), ("SMResource", ⟨none⟩)])],
        stackPages := [[⟨"otherstack", "CREATE_COMPLETE"⟩]],
        changeSetId := "csX", uuidStr := "uX", createResponses := [], execResponses := [] }
      [("Bucket", .str "bktX"), ("Key", .str "keyX"), ("SourceFileName", .str "wfX.json"),
       ("S3StorageClass", .str "STANDARD"), ("StackName", .str "ghost"),
       ("Description", .str "d"), ("TemplateFileName", .str "tX.cform"),
       ("S3KeyParameterName", .str "S3Key"), ("SMResourceParameterName", .str "SMResource"),
       ("SMResource", .str "MyStateMachine")]).1 =
      Except.error (Err.stackNotFound "ghost") ∧
    ((update_workflow
      { buckets := ["bktX"], files := [("wfX.json", "bodyX"), ("tX.cform", "tbodyX")],
        templates := [("tX.cform", [("S3Key", ⟨none⟩), ("SMResource", ⟨none⟩)])],
        stackPages := [[⟨"otherstack", "CREATE_COMPLETE"⟩]],
        changeSetId := "csX", uuidStr := "uX", createResponses := [], execResponses := [] }
      [("Bucket", .str "bktX"), ("Key", .str "keyX"), ("SourceFileName", .str "wfX.json"),
       ("S3StorageClass", .str "STANDARD"), ("StackName", .str "ghost"),
       ("Description", .str "d"), ("TemplateFileName", .str "tX.cform"),
       ("S3KeyParameterName", .str "S3Key"), ("SMResourceParameterName", .str "SMResource"),
       ("SMResource", .str "MyStateMachine")]).2).any isPutObjectEv = true :=
  ⟨rfl, rfl⟩

/-- C2 (amended): whenever the target stack is absent from every page of
the platform's stack listing (and the publish-stage inputs are valid),
the deployment aborts with the stack-not-found precondition error during
`update_stack`'s validation, but only after the blob-store write: the
publish stage's successful put_object is already in the trace. -/
theorem stack_absent_aborts_after_put (w : World) (kwargs : Kwargs)
    (b key src sc body sn : String)
    (hb : pyGet kwargs "Bucket" = some (.str b))
    (hk : pyGet kwargs "Key" = some (.str key))
    (hsf : pyGet kwargs "SourceFileName" = some (.str src))
    (hsc : pyGet kwargs "S3StorageClass" = some (.str sc))
    (hscv : (["STANDARD", "STANDARD_IA", "ONEZONE_IA"] : List String).contains sc = true)
    (hbx : w.buckets.any (fun x => x = b) = true)
    (hfx : w.files.any (fun kv => kv.1 = src) = true)
    (hlook : fsLookup w src = some body)
    (hsn : pyGet kwargs "StackName" = some (.str sn))
    (habsent : ∀ p ∈ w.stackPages, ∀ s ∈ p, s.name ≠ sn) :
    (update_workflow w kwargs).1 = Except.error (Err.stackNotFound sn) ∧
    Event.putObject (.str b) (.str key) body "application/json" "STANDARD" ∈
      (update_workflow w kwargs).2 := by
  have hbf : pyGet (filterKeys saveKeys kwargs) "Bucket" = some (.str b) :=
    (pyGet_filterKeys_mem saveKeys "Bucket" (by decide) kwargs).trans hb
  have hkf : pyGet (filterKeys saveKeys kwargs) "Key" = some (.str key) :=
    (pyGet_filterKeys_mem saveKeys "Key" (by decide) kwargs).trans hk
  have hsff : pyGet (filterKeys saveKeys kwargs) "SourceFileName" = some (.str src) :=
    (pyGet_filterKeys_mem saveKeys "SourceFileName" (by decide) kwargs).trans hsf
  have hscf : pyGet (filterKeys saveKeys kwargs) "S3StorageClass" = some (.str sc) :=
    (pyGet_filterKeys_mem saveKeys "S3StorageClass" (by decide) kwargs).trans hsc
  have hsave := save_success_run w (filterKeys saveKeys kwargs) b key src sc body
    hbf hkf hsff hscf hscv hbx hfx hlook
  have hsn2 : pyGet (uw_update_kwargs kwargs (.str b) (.str key)) "StackName" =
      some (.str sn) :=
    (pyGet_uw_forward kwargs (.str b) (.str key) "StackName" (by decide)).trans hsn
  have hcse : (cseuGo sn w.stackPages).1 = Except.error (Err.stackNotFound sn) :=
    (cseuGo_result sn w.stackPages).2 (by
      rintro ⟨p, hp, s, hs, hn⟩
      exact habsent p hp s hs hn)
  have ha : run_post_checks "StackName" sn [check_stack_exists_and_updatable w] =
      (Except.error (Err.stackNotFound sn), (cseuGo sn w.stackPages).2) :=
    rbind_fst_error hcse _
  have hb2 : _check_parameters "StackName"
      (pyGet (uw_update_kwargs kwargs (.str b) (.str key)) "StackName")
      [check_stack_exists_and_updatable w] =
      (Except.error (Err.stackNotFound sn), (cseuGo sn w.stackPages).2) := by
    rw [hsn2]
    exact ha
  have hval2 : us_validation w (uw_update_kwargs kwargs (.str b) (.str key)) =
      (Except.error (Err.stackNotFound sn),
       (_check_parameters "StackName"
         (pyGet (uw_update_kwargs kwargs (.str b) (.str key)) "StackName")
         [check_stack_exists_and_updatable w]).2) :=
    rbind_fst_error (by rw [hb2]) _
  have hupd2 : update_stack w (uw_update_kwargs kwargs (.str b) (.str key)) =
      (Except.error (Err.stackNotFound sn),
       (us_validation w (uw_update_kwargs kwargs (.str b) (.str key))).2) :=
    rbind_fst_error (by rw [hval2]) _
  constructor
  · simp [update_workflow, hsave, rbind, pyIndex, hb, hk, rok, hupd2]
  · simp [update_workflow, hsave, rbind, pyIndex, hb, hk, rok]

/-- Witness for the amended C2: a concrete valid publish followed by a
missing stack yields the precondition error with the write already
performed. -/
theorem stack_absent_aborts_after_put_witness :
    (update_workflow
      { buckets := ["bktY"], files := [("wfY.json", "bodyY"), ("tY.cform", "tbodyY")],
        templates := [("tY.cform", [("S3Key", ⟨none⟩), ("SMResource", ⟨none⟩)])],
        stackPages := [[⟨"someone", "UPDATE_COMPLETE"⟩], []],
        changeSetId := "csY", uuidStr := "uY", createResponses := [], execResponses := [] }
      [("Bucket", .str "bktY"), ("Key", .str "keyY"), ("SourceFileName", .str "wfY.json"),
       ("S3StorageClass", .str "ONEZONE_IA"), ("StackName", .str "missing"),
       ("Description", .str "d"), ("TemplateFileName", .str "tY.cform"),
       ("S3KeyParameterName", .str "S3Key"), ("SMResourceParameterName", .str "SMResource"),
       ("SMResource", .str "M")]).1 = Except.error (Err.stackNotFound "missing") ∧
    Event.putObject (.str "bktY") (.str "keyY") "bodyY" "application/json" "STANDARD" ∈
      (update_workflow
        { buckets := ["bktY"], files := [("wfY.json", "bodyY"), ("tY.cform", "tbodyY")],
          templates := [("tY.cform", [("S3Key", ⟨none⟩), ("SMResource", ⟨none⟩)])],
          stackPages := [[⟨"someone", "UPDATE_COMPLETE"⟩], []],
          changeSetId := "csY", uuidStr := "uY", createResponses := [], execResponses := [] }
        [("Bucket", .str "bktY"), ("Key", .str "keyY"), ("SourceFileName", .str "wfY.json"),
         ("S3StorageClass", .str "ONEZONE_IA"), ("StackName", .str "missing"),
         ("Description", .str "d"), ("TemplateFileName", .str "tY.cform"),
         ("S3KeyParameterName", .str "S3Key"), ("SMResourceParameterName", .str "SMResource"),
         ("SMResource", .str "M")]).2 :=
  stack_absent_aborts_after_put _ _ "bktY" "keyY" "wfY.json" "ONEZONE_IA" "bodyY" "missing"
    rfl rfl rfl rfl (by decide) (by decide) (by decide) rfl rfl (by decide)

/-- C3 (code defect): a publish call that specifies storage tier
STANDARD_IA succeeds, writing the source file's bytes at the given key
with content type application/json — but the recorded put_object carries
storage class STANDARD: the validated S3StorageClass argument is ignored
because the source hard-codes the storage class at the put_object call
(line 127). -/
theorem save_ignores_storage_class :
    save_workflow_to_s3
      { buckets := ["bkt3"], files := [("wf3.json", "wfbody3")], templates := [],
        stackPages := [], changeSetId := "", uuidStr := "",
        createResponses := [], execResponses := [] }
      [("Bucket", .str "bkt3"), ("Key", .str "key3"), ("SourceFileName", .str "wf3.json"),
       ("S3StorageClass", .str "STANDARD_IA")] =
      (Except.ok (), [Event.listBuckets, Event.readFile "wf3.json",
        Event.putObject (.str "bkt3") (.str "key3") "wfbody3" "application/json" "STANDARD"]) :=
  rfl

/-- C4 counterexample: in a full deployment whose input lacks StackName,
the validation error naming StackName is raised only after the
blob-store write — a remote mutating call (put_object) precedes the
validation error, contradicting the claim that none is made before it. -/
theorem check_parameters_mutation_before_error :
    (update_workflow
      { buckets := ["bktQ"], files := [("wfQ.json", "bodyQ")], templates := [],
        stackPages := [], changeSetId := "", uuidStr := "",
        createResponses := [], execResponses := [] }
      [("Bucket", .str "bktQ"), ("Key", .str "keyQ"), ("SourceFileName", .str "wfQ.json"),
       ("S3StorageClass", .str "STANDARD")]).1 =
      Except.error (Err.validationNone "StackName") ∧
    ((update_workflow
      { buckets := ["bktQ"], files := [("wfQ.json", "bodyQ")], templates := [],
        stackPages := [], changeSetId := "", uuidStr := "",
        createResponses := [], execResponses := [] }
      [("Bucket", .str "bktQ"), ("Key", .str "keyQ"), ("SourceFileName", .str "wfQ.json"),
       ("S3StorageClass", .str "STANDARD")]).2).any isPutObjectEv = true :=
  ⟨rfl, rfl⟩

/-- C4 (amended): `_check_parameters` rejects an absent or non-string
value immediately with an error whose message names that exact
parameter, and validation is fail-fast within its stage: a failing check
inside `update_stack`'s (resp. the publish stage's) validation makes
that very error the result of the stage with a trace free of any
mutating call of that stage. The original stronger reading — no remote
mutating call at all before the error — fails for the stack-update
parameters, because the blob-store write precedes their validation (see
the counterexample). -/
theorem check_parameters_fail_fast :
    (∀ (name : String) (posts : List (String → String → Res Unit)),
       _check_parameters name none posts = (Except.error (Err.validationNone name), []) ∧
       errMessage (Err.validationNone name) = name ++ " must not be None") ∧
    (∀ (name : String) (posts : List (String → String → Res Unit)),
       _check_parameters name (some .nonStr) posts =
         (Except.error (Err.validationNotStr name), []) ∧
       errMessage (Err.validationNotStr name) = name ++ " must be a str or unicode value") ∧
    (∀ (w : World) (kwargs : Kwargs) (e : Err),
       (us_validation w kwargs).1 = Except.error e →
       (update_stack w kwargs).1 = Except.error e ∧
       (update_stack w kwargs).2.all (fun ev => !isMutation ev) = true) ∧
    (∀ (w : World) (kwargs : Kwargs) (e : Err),
       (run_checks kwargs (save_checks w)).1 = Except.error e →
       (save_workflow_to_s3 w kwargs).1 = Except.error e ∧
       (save_workflow_to_s3 w kwargs).2.all (fun ev => !isMutation ev) = true) := by
  refine ⟨fun name posts => ⟨rfl, rfl⟩, fun name posts => ⟨rfl, rfl⟩, ?_, ?_⟩
  · intro w kwargs e herr
    have hpair : update_stack w kwargs = (Except.error e, (us_validation w kwargs).2) :=
      rbind_fst_error herr _
    have hnm := ResAll_us_validation (P := fun ev => !isMutation ev) rfl (fun _ => rfl) w kwargs
    simp only [ResAll] at hnm
    rw [hpair]
    exact ⟨rfl, hnm⟩
  · intro w kwargs e herr
    have hpair : save_workflow_to_s3 w kwargs =
        (Except.error e, (run_checks kwargs (save_checks w)).2) :=
      rbind_fst_error herr _
    have hnm := ResAll_save_validation (P := fun ev => !isMutation ev) rfl w kwargs
    simp only [ResAll] at hnm
    rw [hpair]
    exact ⟨rfl, hnm⟩

/-- Witness for the amended C4: the None case rejects naming the
parameter, and a deployment whose S3Key value is a non-string aborts
`update_stack` with the error naming S3Key and a mutation-free stage
trace. -/
theorem check_parameters_fail_fast_witness :
    (_check_parameters "StackName" none [] =
       (Except.error (Err.validationNone "StackName"), []) ∧
     errMessage (Err.validationNone "StackName") = "StackName" ++ " must not be None") ∧
    ((update_stack
        { buckets := [], files := [("tZ.cform", "tbodyZ")],
          templates := [("tZ.cform", [("S3Key", ⟨none⟩), ("SMResource", ⟨none⟩)])],
          stackPages := [[⟨"stackZ", "CREATE_COMPLETE"⟩]],
          changeSetId := "csZ", uuidStr := "uZ", createResponses := [], execResponses := [] }
        [("StackName", .str "stackZ"), ("TemplateFileName", .str "tZ.cform"),
         ("S3KeyParameterName", .str "S3Key"), ("S3Key", .nonStr),
         ("SMResourceParameterName", .str "SMResource"), ("SMResource", .str "M"),
         ("Description", .str "d")]).1 = Except.error (Err.validationNotStr "S3Key") ∧
     (update_stack
        { buckets := [], files := [("tZ.cform", "tbodyZ")],
          templates := [("tZ.cform", [("S3Key", ⟨none⟩), ("SMResource", ⟨none⟩)])],
          stackPages := [[⟨"stackZ", "CREATE_COMPLETE"⟩]],
          changeSetId := "csZ", uuidStr := "uZ", createResponses := [], execResponses := [] }
        [("StackName", .str "stackZ"), ("TemplateFileName", .str "tZ.cform"),
         ("S3KeyParameterName", .str "S3Key"), ("S3Key", .nonStr),
         ("SMResourceParameterName", .str "SMResource"), ("SMResource", .str "M"),
         ("Description", .str "d")]).2.all (fun ev => !isMutation ev) = true) :=
  ⟨check_parameters_fail_fast.1 "StackName" [],
   check_parameters_fail_fast.2.2.1 _ _ (Err.validationNotStr "S3Key") (by rfl)⟩

theorem rbind_error_pair {α β : Type} (e : Err) (tr : List Event) (f : α → Res β) :
    rbind (Except.error e, tr) f = (Except.error e, tr) := rfl

theorem rbind_ok_pair {α β : Type} (x : α) (tr : List Event) (f : α → Res β) :
    rbind (Except.ok x, tr) f = ((f x).1, tr ++ (f x).2) := rfl

/-- C10: `update_stack` validates exactly the six parameters StackName,
TemplateFileName, S3KeyParameterName, S3Key, SMResourceParameterName and
SMResource — never Description — and for a deployment whose input lacks
a Description entry but passes every check, the failure surfaces as the
missing-key error at the create_change_set argument evaluation: after
the blob-store write and the successful stack and template checks, with
no create_change_set call in the trace, and not as a fail-fast
validation error naming Description. -/
theorem update_stack_validates_six_not_description :
    (∀ (w : World) (kwargs : Kwargs),
       (us_validation_checks w kwargs).map Prod.fst =
         ["StackName", "TemplateFileName", "S3KeyParameterName", "S3Key",
          "SMResourceParameterName", "SMResource"] ∧
       "Description" ∉ (us_validation_checks w kwargs).map Prod.fst) ∧
    (∀ (w : World) (kwargs : Kwargs) (b key src sc body sn tf tbody p1s p2s sm : String),
       pyGet kwargs "Bucket" = some (.str b) →
       pyGet kwargs "Key" = some (.str key) →
       pyGet kwargs "SourceFileName" = some (.str src) →
       pyGet kwargs "S3StorageClass" = some (.str sc) →
       (["STANDARD", "STANDARD_IA", "ONEZONE_IA"] : List String).contains sc = true →
       w.buckets.any (fun x => x = b) = true →
       w.files.any (fun kv => kv.1 = src) = true →
       fsLookup w src = some body →
       pyGet kwargs "StackName" = some (.str sn) →
       pyGet kwargs "TemplateFileName" = some (.str tf) →
       pyGet kwargs "S3KeyParameterName" = some (.str p1s) →
       pyGet kwargs "SMResourceParameterName" = some (.str p2s) →
       pyGet kwargs "SMResource" = some (.str sm) →
       pyGet kwargs "Description" = none →
       fsLookup w tf = some tbody →
       (us_validation w (uw_update_kwargs kwargs (.str b) (.str key))).1 = Except.ok () →
       ((update_workflow w kwargs).1 = Except.error (Err.keyError "Description") ∧
        Event.putObject (.str b) (.str key) body "application/json" "STANDARD" ∈
          (update_workflow w kwargs).2 ∧
        (update_workflow w kwargs).2.all (fun ev => !isCreateCSEv ev) = true)) := by
  constructor
  · intro w kwargs
    refine ⟨rfl, ?_⟩
    rw [show (us_validation_checks w kwargs).map Prod.fst =
      ["StackName", "TemplateFileName", "S3KeyParameterName", "S3Key",
       "SMResourceParameterName", "SMResource"] from rfl]
    decide
  · intro w kwargs b key src sc body sn tf tbody p1s p2s sm
    intro hb hk hsf hsc hscv hbx hfx hlook hsn htf hp1 hp2 hsm hdesc hflook hval
    have hbf : pyGet (filterKeys saveKeys kwargs) "Bucket" = some (.str b) :=
      (pyGet_filterKeys_mem saveKeys "Bucket" (by decide) kwargs).trans hb
    have hkf : pyGet (filterKeys saveKeys kwargs) "Key" = some (.str key) :=
      (pyGet_filterKeys_mem saveKeys "Key" (by decide) kwargs).trans hk
    have hsff : pyGet (filterKeys saveKeys kwargs) "SourceFileName" = some (.str src) :=
      (pyGet_filterKeys_mem saveKeys "SourceFileName" (by decide) kwargs).trans hsf
    have hscf : pyGet (filterKeys saveKeys kwargs) "S3StorageClass" = some (.str sc) :=
      (pyGet_filterKeys_mem saveKeys "S3StorageClass" (by decide) kwargs).trans hsc
    have hsave := save_success_run w (filterKeys saveKeys kwargs) b key src sc body
      hbf hkf hsff hscf hscv hbx hfx hlook
    have hsn2 : pyGet (uw_update_kwargs kwargs (.str b) (.str key)) "StackName" =
        some (.str sn) :=
      (pyGet_uw_forward kwargs (.str b) (.str key) "StackName" (by decide)).trans hsn
    have htf2 : pyGet (uw_update_kwargs kwargs (.str b) (.str key)) "TemplateFileName" =
        some (.str tf) :=
      (pyGet_uw_forward kwargs (.str b) (.str key) "TemplateFileName" (by decide)).trans htf
    have hp12 : pyGet (uw_update_kwargs kwargs (.str b) (.str key)) "S3KeyParameterName" =
        some (.str p1s) :=
      (pyGet_uw_forward kwargs (.str b) (.str key) "S3KeyParameterName" (by decide)).trans hp1
    have hp22 : pyGet (uw_update_kwargs kwargs (.str b) (.str key)) "SMResourceParameterName" =
        some (.str p2s) :=
      (pyGet_uw_forward kwargs (.str b) (.str key) "SMResourceParameterName" (by decide)).trans hp2
    have hsm2 : pyGet (uw_update_kwargs kwargs (.str b) (.str key)) "SMResource" =
        some (.str sm) :=
      (pyGet_uw_forward kwargs (.str b) (.str key) "SMResource" (by decide)).trans hsm
    have hdesc2 : pyGet (uw_update_kwargs kwargs (.str b) (.str key)) "Description" = none :=
      (pyGet_uw_forward kwargs (.str b) (.str key) "Description" (by decide)).trans hdesc
    have hs3k2 := pyGet_uw_s3key kwargs (.str b) (.str key)
    have hcreate : us_create w (uw_update_kwargs kwargs (.str b) (.str key)) =
        (Except.error (Err.keyError "Description"), [Event.readFile tf]) := by
      simp [us_create, pyIndex, hsn2, htf2, hp12, hs3k2, hp22, hsm2, hdesc2, readFileR,
        hflook, pyToString, rbind_rok, rbind_ok_pair, rbind_error_pair, rbind_rthrow,
        rthrow, rok]
    have hus : update_stack w (uw_update_kwargs kwargs (.str b) (.str key)) =
        (Except.error (Err.keyError "Description"),
         (us_validation w (uw_update_kwargs kwargs (.str b) (.str key))).2 ++
           [Event.readFile tf]) := by
      simp [update_stack, rbind_fst_ok hval, hcreate, rbind_error_pair]
    have hvnm := ResAll_us_validation (P := fun ev => !isCreateCSEv ev) rfl (fun _ => rfl)
      w (uw_update_kwargs kwargs (.str b) (.str key))
    simp only [ResAll] at hvnm
    refine ⟨?_, ?_, ?_⟩
    · simp [update_workflow, hsave, rbind_ok_pair, pyIndex, hb, hk, rbind_rok, rok, hus]
    · simp [update_workflow, hsave, rbind_ok_pair, pyIndex, hb, hk, rbind_rok, rok, hus]
    · simp only [update_workflow, hsave, rbind_ok_pair, pyIndex, hb, hk, rbind_rok, hus]
      rw [List.all_eq_true]
      intro x hx
      simp only [rok, List.append_nil, List.nil_append, List.mem_append, List.mem_cons,
        List.not_mem_nil, or_false] at hx
      rcases hx with (rfl | rfl | rfl) | hx | rfl
      · rfl
      · rfl
      · rfl
      · exact List.all_eq_true.mp hvnm x hx
      · rfl

/-- Witness for C10: a concrete deployment with every parameter valid
except a missing Description reaches the create call and fails there
with the missing-key error, after the write and the checks, with no
create_change_set in the trace. -/
theorem update_stack_validates_six_not_description_witness :
    ((us_validation_checks
        { buckets := ["bktW"], files := [("wfW.json", "bodyW"), ("tW.cform", "tbW")],
          templates := [("tW.cform", [("S3Key", ⟨none⟩), ("SMResource", ⟨none⟩)])],
          stackPages := [[⟨"stW", "CREATE_COMPLETE"⟩]],
          changeSetId := "csW", uuidStr := "uW", createResponses := [], execResponses := [] }
        [("Bucket", .str "bktW"), ("Key", .str "keyW"), ("SourceFileName", .str "wfW.json"),
         ("S3StorageClass", .str "STANDARD"), ("StackName", .str "stW"),
         ("TemplateFileName", .str "tW.cform"), ("S3KeyParameterName", .str "S3Key"),
         ("SMResourceParameterName", .str "SMResource"),
         ("SMResource", .str "MW")]).map Prod.fst =
       ["StackName", "TemplateFileName", "S3KeyParameterName", "S3Key",
        "SMResourceParameterName", "SMResource"]) ∧
    (update_workflow
      { buckets := ["bktW"], files := [("wfW.json", "bodyW"), ("tW.cform", "tbW")],
        templates := [("tW.cform", [("S3Key", ⟨none⟩), ("SMResource", ⟨none⟩)])],
        stackPages := [[⟨"stW", "CREATE_COMPLETE"⟩]],
        changeSetId := "csW", uuidStr := "uW", createResponses := [], execResponses := [] }
      [("Bucket", .str "bktW"), ("Key", .str "keyW"), ("SourceFileName", .str "wfW.json"),
       ("S3StorageClass", .str "STANDARD"), ("StackName", .str "stW"),
       ("TemplateFileName", .str "tW.cform"), ("S3KeyParameterName", .str "S3Key"),
       ("SMResourceParameterName", .str "SMResource"),
       ("SMResource", .str "MW")]).1 = Except.error (Err.keyError "Description") ∧
    Event.putObject (.str "bktW") (.str "keyW") "bodyW" "application/json" "STANDARD" ∈
      (update_workflow
        { buckets := ["bktW"], files := [("wfW.json", "bodyW"), ("tW.cform", "tbW")],
          templates := [("tW.cform", [("S3Key", ⟨none⟩), ("SMResource", ⟨none⟩)])],
          stackPages := [[⟨"stW", "CREATE_COMPLETE"⟩]],
          changeSetId := "csW", uuidStr := "uW", createResponses := [], execResponses := [] }
        [("Bucket", .str "bktW"), ("Key", .str "keyW"), ("SourceFileName", .str "wfW.json"),
         ("S3StorageClass", .str "STANDARD"), ("StackName", .str "stW"),
         ("TemplateFileName", .str "tW.cform"), ("S3KeyParameterName", .str "S3Key"),
         ("SMResourceParameterName", .str "SMResource"),
         ("SMResource", .str "MW")]).2 := by
  have hc := update_stack_validates_six_not_description.2
    ({ buckets := ["bktW"], files := [("wfW.json", "bodyW"), ("tW.cform", "tbW")],
       templates := [("tW.cform", [("S3Key", ⟨none⟩), ("SMResource", ⟨none⟩)])],
       stackPages := [[⟨"stW", "CREATE_COMPLETE"⟩]],
       changeSetId := "csW", uuidStr := "uW",
       createResponses := [], execResponses := [] } : World)
    ([("Bucket", .str "bktW"), ("Key", .str "keyW"), ("SourceFileName", .str "wfW.json"),
       ("S3StorageClass", .str "STANDARD"), ("StackName", .str "stW"),
       ("TemplateFileName", .str "tW.cform"), ("S3KeyParameterName", .str "S3Key"),
       ("SMResourceParameterName", .str "SMResource"),
       ("SMResource", .str "MW")] : Kwargs)
    "bktW" "keyW" "wfW.json" "STANDARD" "bodyW" "stW" "tW.cform" "tbW" "S3Key" "SMResource"
    "MW" rfl rfl rfl rfl (by decide) (by decide) (by decide) rfl rfl rfl rfl rfl rfl rfl rfl
    (by rfl)
  exact ⟨(update_stack_validates_six_not_description.1
    ({ buckets := ["bktW"], files := [("wfW.json", "bodyW"), ("tW.cform", "tbW")],
       templates := [("tW.cform", [("S3Key", ⟨none⟩), ("SMResource", ⟨none⟩)])],
       stackPages := [[⟨"stW", "CREATE_COMPLETE"⟩]],
       changeSetId := "csW", uuidStr := "uW",
       createResponses := [], execResponses := [] } : World)
    ([("Bucket", .str "bktW"), ("Key", .str "keyW"), ("SourceFileName", .str "wfW.json"),
       ("S3StorageClass", .str "STANDARD"), ("StackName", .str "stW"),
       ("TemplateFileName", .str "tW.cform"), ("S3KeyParameterName", .str "S3Key"),
       ("SMResourceParameterName", .str "SMResource"),
       ("SMResource", .str "MW")] : Kwargs)).1, hc.1, hc.2.1⟩

/-- A canonical uuid4 string assembled from its five dash-separated
groups (8-4-4-4-12 hexadecimal characters). -/
def uuidOfParts (a b c d e : List Char) : String :=
  String.mk (a ++ Char.ofNat 45 ::
    (b ++ Char.ofNat 45 :: (c ++ Char.ofNat 45 :: (d ++ Char.ofNat 45 :: e))))

theorem splitDash_no_dash : ∀ l : List Char, (∀ c ∈ l, c ≠ Char.ofNat 45) → splitDash l = [l]
  | [], _ => rfl
  | c :: cs, h => by
    have hc : ¬ (c = Char.ofNat 45) := h c (by simp)
    have ih := splitDash_no_dash cs (fun x hx => h x (by simp [hx]))
    simp [splitDash, hc, ih]

theorem splitDash_append_dash : ∀ (a rest : List Char), (∀ c ∈ a, c ≠ Char.ofNat 45) →
    splitDash (a ++ Char.ofNat 45 :: rest) = a :: splitDash rest
  | [], rest, _ => by simp [splitDash]
  | c :: cs, rest, h => by
    have hc : ¬ (c = Char.ofNat 45) := h c (by simp)
    have ih := splitDash_append_dash cs rest (fun x hx => h x (by simp [hx]))
    simp [splitDash, hc, ih]

theorem changeSetName_uuidOfParts (a b c d e : List Char)
    (ha : ∀ x ∈ a, x ≠ Char.ofNat 45) (hb : ∀ x ∈ b, x ≠ Char.ofNat 45)
    (hc : ∀ x ∈ c, x ≠ Char.ofNat 45) (hd : ∀ x ∈ d, x ≠ Char.ofNat 45)
    (he : ∀ x ∈ e, x ≠ Char.ofNat 45) :
    changeSetName (uuidOfParts a b c d e) =
      String.mk (Char.ofNat 65 :: (a ++ (b ++ (c ++ (d ++ e))))) := by
  unfold changeSetName uuidOfParts
  rw [show (String.mk (a ++ Char.ofNat 45 ::
      (b ++ Char.ofNat 45 :: (c ++ Char.ofNat 45 :: (d ++ Char.ofNat 45 :: e))))).data =
      a ++ Char.ofNat 45 ::
        (b ++ Char.ofNat 45 :: (c ++ Char.ofNat 45 :: (d ++ Char.ofNat 45 :: e))) from rfl]
  rw [splitDash_append_dash a _ ha, splitDash_append_dash b _ hb, splitDash_append_dash c _ hc,
    splitDash_append_dash d _ hd, splitDash_no_dash e he]
  simp

theorem changeSetName_inj_on_canonical (a b c d e a2 b2 c2 d2 e2 : List Char)
    (ha : ∀ x ∈ a, x ≠ Char.ofNat 45) (hb : ∀ x ∈ b, x ≠ Char.ofNat 45)
    (hc : ∀ x ∈ c, x ≠ Char.ofNat 45) (hd : ∀ x ∈ d, x ≠ Char.ofNat 45)
    (he : ∀ x ∈ e, x ≠ Char.ofNat 45)
    (ha2 : ∀ x ∈ a2, x ≠ Char.ofNat 45) (hb2 : ∀ x ∈ b2, x ≠ Char.ofNat 45)
    (hc2 : ∀ x ∈ c2, x ≠ Char.ofNat 45) (hd2 : ∀ x ∈ d2, x ≠ Char.ofNat 45)
    (he2 : ∀ x ∈ e2, x ≠ Char.ofNat 45)
    (hla : a.length = 8) (hla2 : a2.length = 8)
    (hlb : b.length = 4) (hlb2 : b2.length = 4)
    (hlc : c.length = 4) (hlc2 : c2.length = 4)
    (hld : d.length = 4) (hld2 : d2.length = 4)
    (heq : changeSetName (uuidOfParts a b c d e) = changeSetName (uuidOfParts a2 b2 c2 d2 e2)) :
    uuidOfParts a b c d e = uuidOfParts a2 b2 c2 d2 e2 := by
  rw [changeSetName_uuidOfParts a b c d e ha hb hc hd he,
    changeSetName_uuidOfParts a2 b2 c2 d2 e2 ha2 hb2 hc2 hd2 he2] at heq
  have h0 : a ++ (b ++ (c ++ (d ++ e))) = a2 ++ (b2 ++ (c2 ++ (d2 ++ e2))) := by
    have := congrArg String.data heq
    simpa using this
  have h1 := List.append_inj h0 (hla.trans hla2.symm)
  have h2 := List.append_inj h1.2 (hlb.trans hlb2.symm)
  have h3 := List.append_inj h2.2 (hlc.trans hlc2.symm)
  have h4 := List.append_inj h3.2 (hld.trans hld2.symm)
  unfold uuidOfParts
  rw [h1.1, h2.1, h3.1, h4.1, h4.2]

/-- The create call of `update_stack` under valid inputs: it reads the
template file and submits exactly one request built from the kwargs
values, the file body, and the freshly drawn uuid, returning the
platform-assigned change-set id. -/
theorem us_create_request (w : World) (kwargs : Kwargs) (sn tf body : String)
    (p1 s3k p2 smr desc : PyVal)
    (hsn : pyGet kwargs "StackName" = some (.str sn))
    (htf : pyGet kwargs "TemplateFileName" = some (.str tf))
    (hbody : fsLookup w tf = some body)
    (hp1 : pyGet kwargs "S3KeyParameterName" = some p1)
    (hs3 : pyGet kwargs "S3Key" = some s3k)
    (hp2 : pyGet kwargs "SMResourceParameterName" = some p2)
    (hsm : pyGet kwargs "SMResource" = some smr)
    (hd : pyGet kwargs "Description" = some desc) :
    us_create w kwargs =
      (Except.ok w.changeSetId,
       [Event.readFile tf,
        Event.createCS
          { stackName := .str sn,
            templateBody := body,
            parameters :=
              [{ parameterKey := p1, parameterValue := s3k, usePreviousValue := false },
               { parameterKey := p2, parameterValue := smr, usePreviousValue := false }],
            capabilities := ["CAPABILITY_IAM", "CAPABILITY_NAMED_IAM"],
            description := desc,
            changeSetName := changeSetName w.uuidStr,
            changeSetType := "UPDATE" }]) := by
  simp [us_create, pyIndex, hsn, htf, hbody, hp1, hs3, hp2, hsm, hd, readFileR, pyToString,
    rbind_rok, rbind_ok_pair, rbind_remit, rok, remit]

/-- C9: the change-set creation request of `update_stack` carries the
template body read unchanged from the template file, exactly two
parameters — the blob key and the target resource's logical id — each
with UsePreviousValue false, both IAM capability flags, the
caller-supplied description, change set type UPDATE (never a create),
and a change-set name derived from the freshly drawn uuid (the letter A
followed by the uuid with its dashes removed), a derivation injective on
canonical uuid strings so distinct uuids give distinct names; and
`update_workflow` passes the blob key formatted as the fully-qualified
location string s3://bucket/key. -/
theorem create_change_set_request_spec :
    (∀ (w : World) (kwargs : Kwargs) (sn tf body : String) (p1 s3k p2 smr desc : PyVal),
       pyGet kwargs "StackName" = some (.str sn) →
       pyGet kwargs "TemplateFileName" = some (.str tf) →
       fsLookup w tf = some body →
       pyGet kwargs "S3KeyParameterName" = some p1 →
       pyGet kwargs "S3Key" = some s3k →
       pyGet kwargs "SMResourceParameterName" = some p2 →
       pyGet kwargs "SMResource" = some smr →
       pyGet kwargs "Description" = some desc →
       us_create w kwargs =
         (Except.ok w.changeSetId,
          [Event.readFile tf,
           Event.createCS
             { stackName := .str sn,
               templateBody := body,
               parameters :=
                 [{ parameterKey := p1, parameterValue := s3k, usePreviousValue := false },
                  { parameterKey := p2, parameterValue := smr, usePreviousValue := false }],
               capabilities := ["CAPABILITY_IAM", "CAPABILITY_NAMED_IAM"],
               description := desc,
               changeSetName := changeSetName w.uuidStr,
               changeSetType := "UPDATE" }])) ∧
    (∀ (kwargs : Kwargs) (bv kv : PyVal),
       pyGet (uw_update_kwargs kwargs bv kv) "S3Key" =
         some (.str ("s3://" ++ pyToString bv ++ "/" ++ pyToString kv))) ∧
    (∀ a b c d e a2 b2 c2 d2 e2 : List Char,
       (∀ x ∈ a, x ≠ Char.ofNat 45) → (∀ x ∈ b, x ≠ Char.ofNat 45) →
       (∀ x ∈ c, x ≠ Char.ofNat 45) → (∀ x ∈ d, x ≠ Char.ofNat 45) →
       (∀ x ∈ e, x ≠ Char.ofNat 45) →
       (∀ x ∈ a2, x ≠ Char.ofNat 45) → (∀ x ∈ b2, x ≠ Char.ofNat 45) →
       (∀ x ∈ c2, x ≠ Char.ofNat 45) → (∀ x ∈ d2, x ≠ Char.ofNat 45) →
       (∀ x ∈ e2, x ≠ Char.ofNat 45) →
       a.length = 8 → a2.length = 8 → b.length = 4 → b2.length = 4 →
       c.length = 4 → c2.length = 4 → d.length = 4 → d2.length = 4 →
       changeSetName (uuidOfParts a b c d e) = changeSetName (uuidOfParts a2 b2 c2 d2 e2) →
       uuidOfParts a b c d e = uuidOfParts a2 b2 c2 d2 e2) := by
  refine ⟨?_, ?_, ?_⟩
  · intro w kwargs sn tf body p1 s3k p2 smr desc hsn htf hbody hp1 hs3 hp2 hsm hd
    exact us_create_request w kwargs sn tf body p1 s3k p2 smr desc hsn htf hbody hp1 hs3
      hp2 hsm hd
  · intro kwargs bv kv
    rw [pyGet_uw_s3key]
    rfl
  · intro a b c d e a2 b2 c2 d2 e2 ha hb hc hd he ha2 hb2 hc2 hd2 he2
    intro hla hla2 hlb hlb2 hlc hlc2 hld hld2 heq
    exact changeSetName_inj_on_canonical a b c d e a2 b2 c2 d2 e2 ha hb hc hd he
      ha2 hb2 hc2 hd2 he2 hla hla2 hlb hlb2 hlc hlc2 hld hld2 heq

/-- Witness for C9: a concrete create call produces exactly the
specified request, the forwarded S3Key is the s3://bucket/key string,
and the name derivation is injective at a concrete canonical uuid. -/
theorem create_change_set_request_spec_witness :
    (us_create
      { buckets := [], files := [("tV.cform", "tbodyV")], templates := [],
        stackPages := [], changeSetId := "cs-V",
        uuidStr := "12345678-1234-1234-1234-123456789012",
        createResponses := [], execResponses := [] }
      [("StackName", .str "stV"), ("TemplateFileName", .str "tV.cform"),
       ("S3KeyParameterName", .str "S3Key"), ("S3Key", .str "s3://bv/kv"),
       ("SMResourceParameterName", .str "SMResource"), ("SMResource", .str "MV"),
       ("Description", .str "dV")] =
      (Except.ok "cs-V",
       [Event.readFile "tV.cform",
        Event.createCS
          { stackName := .str "stV",
            templateBody := "tbodyV",
            parameters :=
              [{ parameterKey := .str "S3Key", parameterValue := .str "s3://bv/kv",
                 usePreviousValue := false },
               { parameterKey := .str "SMResource", parameterValue := .str "MV",
                 usePreviousValue := false }],
            capabilities := ["CAPABILITY_IAM", "CAPABILITY_NAMED_IAM"],
            description := .str "dV",
            changeSetName := changeSetName "12345678-1234-1234-1234-123456789012",
            changeSetType := "UPDATE" }])) ∧
    (pyGet (uw_update_kwargs [("Bucket", .str "bv"), ("Key", .str "kv")] (.str "bv") (.str "kv"))
       "S3Key" = some (.str ("s3://" ++ pyToString (.str "bv") ++ "/" ++ pyToString (.str "kv")))) ∧
    uuidOfParts "12345678".data "1234".data "1234".data "1234".data "123456789012".data =
      uuidOfParts "12345678".data "1234".data "1234".data "1234".data "123456789012".data := by
  refine ⟨?_, ?_, ?_⟩
  · exact create_change_set_request_spec.1 _ _ "stV" "tV.cform" "tbodyV" (.str "S3Key")
      (.str "s3://bv/kv") (.str "SMResource") (.str "MV") (.str "dV")
      rfl rfl rfl rfl rfl rfl rfl rfl
  · exact create_change_set_request_spec.2.1 [("Bucket", .str "bv"), ("Key", .str "kv")]
      (.str "bv") (.str "kv")
  · exact create_change_set_request_spec.2.2 "12345678".data "1234".data "1234".data
      "1234".data "123456789012".data "12345678".data "1234".data "1234".data
      "1234".data "123456789012".data
      (by decide) (by decide) (by decide) (by decide) (by decide)
      (by decide) (by decide) (by decide) (by decide) (by decide)
      (by decide) (by decide) (by decide) (by decide)
      (by decide) (by decide) (by decide) (by decide) rfl

end DeployWorkflow
